import Mathlib

/-!
# RoadsProject: access gate and session codes

Shallow embedding of

* `src/middleware/validateLevel.js`  (validateSupervisorLevel, validateMasterLevel)
* `src/middleware/validateToken.js`  (validateToken)
* `src/helpers/jwt.js`               (issue, validate)
* `src/router.js`                    (restRouter)
* `src/routes/user.js`               (GET /user/, GET /user/code/:scene)
* `src/routes/codes.js`              (GET /codes/validate/:code, GET /codes/image/:code,
                                      POST /codes/close/:code)
* `src/routes/modules.js`            (GET /modules/)
* `src/utils/sqlite.js`              (the tables Users, Codes, Modules and Results)
* `server.js`                        (the global error handler)

A middleware `f(request, response, next)` is embedded as a function from the
request and the behaviour of the `next` callback to the effects the call has:
the writes to the request object, the calls it makes to `next` and to
`jwt.validate`, the lines it logs, and the value it throws (if any).

A route handler is embedded as a function from the store (the tables as lists of rows),
the clock and its request parameters to the store it leaves and its reply. The SQL
statements run one after the other on the lists, each committed on its own.
-/

namespace Roads

/-! ## Values -/

/-- Object literal `{code, message}` thrown by the middlewares and route handlers. -/
structure ErrorObject where
  code : Int
  message : String
deriving DecidableEq, Repr

/-- A thrown JavaScript value: one of the object literals of the application, or the
runtime `TypeError` raised by a property read on `undefined`. -/
inductive Thrown where
  | object (error : ErrorObject)
  | typeError (message : String)
deriving DecidableEq, Repr

/-- Error classes of the jsonwebtoken library, as listed in the doc comment of
`validate` in `helpers/jwt.js` (malformed or badly signed, expired, not yet valid). -/
inductive JwtErrorName where
  | JsonWebTokenError
  | TokenExpiredError
  | NotBeforeError
deriving DecidableEq, Repr

/-- An exception raised by `jwt.verify`. -/
structure JwtError where
  name : JwtErrorName
  message : String
deriving DecidableEq, Repr

/-- Decoded token payload, following the payload structure documented in
`helpers/jwt.js`: `{id, level, iat, exp}` with `exp` present only when the token
was signed with `expiresIn`. -/
structure Payload where
  id : Int
  level : Int
  iat : Nat
  exp : Option Nat
deriving DecidableEq, Repr

/-- The parts of the Express request object the middlewares read or write.
Header names are stored in lower case, as node does. `user` is `none` while
`request.user` is undefined. -/
structure Request where
  method : String
  originalUrl : String
  headers : List (String × String)
  body : String
  user : Option Payload
deriving DecidableEq, Repr

/-- The call `request.header(name)` for a lower-case `name`: the value of the header, or
`none` for `undefined`. -/
def Request.header (request : Request) (name : String) : Option String :=
  request.headers.lookup name

/-- JavaScript truthiness of a value that is a string or `undefined`:
`undefined` and the empty string are falsy. -/
def truthy : Option String → Bool
  | none => false
  | some s => s != ""

/-! ## helpers/jwt.js -/

/-- The external jsonwebtoken library together with `process.env.secret`.
`verify token secret` is `jwt.verify(token, secret)`: the decoded payload, or the
exception it raises. -/
structure Jwt where
  secret : String
  verify : String → String → Except JwtError Payload

/-- Function `validate(token)` of `helpers/jwt.js`:
`return jwt.verify(token, process.env.secret)`. -/
def Jwt.validate (jwt : Jwt) (token : String) : Except JwtError Payload :=
  jwt.verify token jwt.secret

/-! ## Middleware effects -/

/-- Behaviour of the `next` callback handed to a middleware: given the request at the
time of the call, `none` when `next()` returns normally and `some v` when it throws `v`. -/
abbrev Next := Request → Option Thrown

/-- Everything one middleware call does.

* `request`: the request object after the writes of the middleware itself;
* `nextCalls`: the argument of each call to `next`, in order (`none` is `next()` with
  no error argument);
* `validateCalls`: the token passed to each call of `jwt.validate`;
* `console`: the lines written with `console.log`;
* `thrown`: the value the call throws, `none` when it returns normally. -/
structure Effects where
  request : Request
  nextCalls : List (Option Thrown)
  validateCalls : List String
  console : List String
  thrown : Option Thrown
deriving DecidableEq, Repr

/-- The middleware called `next()` exactly once, with no error argument, and returned
normally. -/
def Effects.passed (e : Effects) : Prop :=
  e.nextCalls = [none] ∧ e.thrown = none

/-- The middleware did not call `next` and threw the object literal `error`. -/
def Effects.rejectedWith (e : Effects) (error : ErrorObject) : Prop :=
  e.nextCalls = [] ∧ e.thrown = some (.object error)

instance (e : Effects) : Decidable e.passed := by
  unfold Effects.passed; infer_instance

instance (e : Effects) (error : ErrorObject) : Decidable (e.rejectedWith error) := by
  unfold Effects.rejectedWith; infer_instance

/-- Message of the `TypeError` raised by reading `request.user.level` while
`request.user` is undefined. -/
def undefinedUserMessage : String :=
  "Cannot read properties of undefined (reading level)"

/-! ## middleware/validateLevel.js -/

/-- Object thrown by validateSupervisorLevel (validateLevel.js, line 44). -/
def supervisorRequired : ErrorObject :=
  ⟨-6, "Insufficient user level (Supervisor required)."⟩

/-- Object thrown by validateMasterLevel (validateLevel.js, line 71). -/
def masterRequired : ErrorObject :=
  ⟨-7, "Insufficient user level (Master required)."⟩

/-- Middleware `validateSupervisorLevel(request, response, next)`,
validateLevel.js lines 34-46. -/
def validateSupervisorLevel (request : Request) (next : Next) : Effects :=
  match request.user with
  | none =>
    { request := request, nextCalls := [], validateCalls := [], console := [],
      thrown := some (.typeError undefinedUserMessage) }
  | some user =>
    if user.level > 10 then
      { request := request, nextCalls := [none], validateCalls := [], console := [],
        thrown := next request }
    else
      { request := request, nextCalls := [], validateCalls := [],
        console := ["Access denied - User level " ++ toString user.level ++
          " < required 11 (Supervisor) for " ++ request.originalUrl],
        thrown := some (.object supervisorRequired) }

/-- Middleware `validateMasterLevel(request, response, next)`,
validateLevel.js lines 61-73. -/
def validateMasterLevel (request : Request) (next : Next) : Effects :=
  match request.user with
  | none =>
    { request := request, nextCalls := [], validateCalls := [], console := [],
      thrown := some (.typeError undefinedUserMessage) }
  | some user =>
    if user.level > 100 then
      { request := request, nextCalls := [none], validateCalls := [], console := [],
        thrown := next request }
    else
      { request := request, nextCalls := [], validateCalls := [],
        console := ["Access denied - User level " ++ toString user.level ++
          " < required 101 (Master) for " ++ request.originalUrl],
        thrown := some (.object masterRequired) }

/-! ## middleware/validateToken.js -/

/-- Object thrown when the header holds no token (validateToken.js, line 37). -/
def tokenRequired (originalUrl : String) : ErrorObject :=
  ⟨-8, "Access denied. Token required for: " ++ originalUrl⟩

/-- Object thrown from the catch block (validateToken.js, line 49). -/
def invalidToken : ErrorObject :=
  ⟨-9, "Invalid or expired token"⟩

/-- Middleware `validateToken(request, response, next)`, validateToken.js lines 31-51.
Both `jwt.validate(token)` and `next()` stand inside the `try` block, so an exception
of either one is replaced by the object of the catch block. -/
def validateToken (jwt : Jwt) (request : Request) (next : Next) : Effects :=
  let token := request.header "auth-token"
  if truthy token then
    let tokenValue := token.getD ""
    match jwt.validate tokenValue with
    | .error _ =>
      { request := request, nextCalls := [], validateCalls := [tokenValue], console := [],
        thrown := some (.object invalidToken) }
    | .ok payload =>
      let request1 := { request with user := some payload }
      match next request1 with
      | none =>
        { request := request1, nextCalls := [none], validateCalls := [tokenValue],
          console := [], thrown := none }
      | some _ =>
        { request := request1, nextCalls := [none], validateCalls := [tokenValue],
          console := [], thrown := some (.object invalidToken) }
  else
    { request := request, nextCalls := [], validateCalls := [], console := [],
      thrown := some (.object (tokenRequired request.originalUrl)) }

/-! ## router.js -/

/-- The middlewares imported by `router.js`. -/
inductive Stage where
  | validateToken
  | validateSupervisorLevel
  | validateMasterLevel
deriving DecidableEq, Repr

/-- The route modules required by `router.js`. -/
inductive Routes where
  | auth
  | user
  | codes
  | license
  | results
  | modules
deriving DecidableEq, Repr

/-- One function argument of a `restRouter.use` call: a middleware or a route module. -/
inductive Handler where
  | stage (s : Stage)
  | routes (r : Routes)
deriving DecidableEq, Repr

/-- One call `restRouter.use(path, ...handlers)`. -/
structure Use where
  path : String
  handlers : List Handler
deriving DecidableEq, Repr

/-- The six `restRouter.use` calls of `router.js` (lines 31, 37, 43, 49, 55, 61), in
source order. -/
def restRouter : List Use :=
  [ ⟨"/auth", [.routes .auth]⟩,
    ⟨"/user", [.stage .validateToken, .routes .user]⟩,
    ⟨"/codes", [.routes .codes]⟩,
    ⟨"/license", [.stage .validateToken, .stage .validateSupervisorLevel, .routes .license]⟩,
    ⟨"/results", [.stage .validateToken, .stage .validateSupervisorLevel, .routes .results]⟩,
    ⟨"/modules", [.stage .validateToken, .routes .modules]⟩ ]

/-- The handlers mounted on `path`, when `restRouter` has a `use` call for it. -/
def mounted (path : String) : Option (List Handler) :=
  (restRouter.find? (fun u => u.path == path)).map (fun u => u.handlers)

/-- The middlewares standing before the first route module in a handler list. -/
def stagesBefore : List Handler → List Stage
  | [] => []
  | .routes _ :: _ => []
  | .stage s :: rest => s :: stagesBefore rest

/-- The middleware pipeline of the route group mounted on `path`. -/
def pipelineOf (path : String) : Option (List Stage) :=
  (mounted path).map stagesBefore

/-- The body of a middleware, by name. -/
def Stage.call (jwt : Jwt) : Stage → Request → Next → Effects
  | .validateToken => Roads.validateToken jwt
  | .validateSupervisorLevel => Roads.validateSupervisorLevel
  | .validateMasterLevel => Roads.validateMasterLevel

/-! ## Express dispatch

The Express router is an external library. Its `next` runs the following layer inside
`try { fn(req, res, next) } catch (err) { next(err) }` and hands an error to the
error-handling middleware of `server.js`, skipping every ordinary layer. A call of
`next()` made by a middleware therefore returns normally. The three middlewares do
nothing after their call of `next()`, so running the following layer after the
middleware has returned gives the same result as running it inside the call. -/

/-- The `next` callback the Express router passes to a layer: it never throws. -/
def routerNext : Next := fun _ => none

/-- How the handling of a request by a handler list ends.

* `handled r request`: the route module `r` was reached, with this request object;
* `rejected v`: `v` was thrown (or passed to `next`) and goes to the error handler;
* `pending`: a middleware returned without calling `next` and without throwing;
* `unmatched`: the list ended without a route module. -/
inductive Outcome where
  | handled (r : Routes) (request : Request)
  | rejected (value : Thrown)
  | pending
  | unmatched (request : Request)
deriving DecidableEq, Repr

/-- Record of one dispatch: the handlers that were run, in order, the lines logged, the
tokens given to `jwt.validate`, and the outcome. -/
structure Run where
  ran : List Handler
  console : List String
  validateCalls : List String
  outcome : Outcome
deriving DecidableEq, Repr

/-- Run a handler list on a request the way the Express router does. -/
def dispatch (jwt : Jwt) : List Handler → Request → Run
  | [], request => ⟨[], [], [], .unmatched request⟩
  | .routes r :: _, request => ⟨[.routes r], [], [], .handled r request⟩
  | .stage s :: rest, request =>
    let eff := s.call jwt request routerNext
    match eff.thrown, eff.nextCalls.head? with
    | some v, _ => ⟨[.stage s], eff.console, eff.validateCalls, .rejected v⟩
    | none, some (some v) => ⟨[.stage s], eff.console, eff.validateCalls, .rejected v⟩
    | none, none => ⟨[.stage s], eff.console, eff.validateCalls, .pending⟩
    | none, some none =>
      let run := dispatch jwt rest eff.request
      ⟨.stage s :: run.ran, eff.console ++ run.console,
        eff.validateCalls ++ run.validateCalls, run.outcome⟩

/-- Serve a request addressed to the route group mounted on `path`; `none` when no
group is mounted there. -/
def serve (jwt : Jwt) (path : String) (request : Request) : Option Run :=
  (mounted path).map (fun handlers => dispatch jwt handlers request)

/-- Thread a request through a list of middlewares that all pass; `none` as soon as one
of them does not pass. -/
def passAll (jwt : Jwt) : List Stage → Request → Option Request
  | [], request => some request
  | s :: rest, request =>
    let eff := s.call jwt request routerNext
    if eff.nextCalls = [none] ∧ eff.thrown = none then passAll jwt rest eff.request
    else none

/-! ## Sample data -/

/-- A verifier accepting the token `good` for a level 11 user and `basic` for a level 10
user, and raising the expiry error on `old` and the signature error otherwise. -/
def sampleJwt : Jwt where
  secret := "s3cret"
  verify := fun token _ =>
    if token = "good" then .ok ⟨7, 11, 1000, some 865000⟩
    else if token = "basic" then .ok ⟨8, 10, 1000, some 865000⟩
    else if token = "old" then .error ⟨.TokenExpiredError, "jwt expired"⟩
    else .error ⟨.JsonWebTokenError, "invalid signature"⟩

/-- A request to the license listing carrying the given headers and user. -/
def sampleRequest (headers : List (String × String)) (user : Option Payload) : Request :=
  ⟨"GET", "/license/list/10/0", headers, "", user⟩

/-! ## helpers/jwt.js: issuing tokens -/

/-- The object `{id, level}` handed to `issue` by the login, registration and refresh
handlers. -/
structure Claims where
  id : Int
  level : Int
deriving DecidableEq, Repr

/-- The claims carried by a decoded payload. -/
def Payload.claims (payload : Payload) : Claims :=
  ⟨payload.id, payload.level⟩

/-- The own properties of a claims object, as key and value pairs in insertion order. -/
def Claims.toObject (claims : Claims) : List (String × Int) :=
  [("id", claims.id), ("level", claims.level)]

/-- The own properties of a decoded payload, as key and value pairs: `exp` is a property
only when the token has an expiry. -/
def Payload.toObject (payload : Payload) : List (String × Int) :=
  [("id", payload.id), ("level", payload.level), ("iat", (payload.iat : Int))] ++
    (match payload.exp with
     | some exp => [("exp", (exp : Int))]
     | none => [])

/-- Modelled from the spec: the jsonwebtoken library (`jwt.sign`, `jwt.verify`) is not under
`src/`. Its signing primitives are two parameters: `encode payload secret` serialises a
payload and signs it with the secret, and `decode token secret` checks the signature of
a token against the secret and parses the payload, `none` when the token is malformed or
the signature does not verify. -/
structure Jws where
  encode : Payload → String → String
  decode : String → String → Option Payload

/-- Modelled from the spec: `jwt.sign(payload, secret, options)` of the jsonwebtoken
library at clock time `now` (seconds). Section 3 of the specification: a token encodes the
principal plus issued-at and optional expiry timestamps; section 4.1: the expiry is
`now + ttl`; the payload structure documented in `helpers/jwt.js` names them `iat`
and `exp`. -/
def Jws.sign (lib : Jws) (now : Nat) (claims : Claims) (secret : String)
    (expiresIn : Option Nat) : String :=
  lib.encode ⟨claims.id, claims.level, now, expiresIn.map (fun ttl => now + ttl)⟩ secret

/-- Modelled from the spec: `jwt.verify(token, secret)` of the jsonwebtoken library at clock
time `now` (seconds). Section 4.1 of the specification: validation verifies the signature
and, if present, the expiry; the failures are the error classes listed in
`helpers/jwt.js`. A token whose `exp` is not after the clock is expired. The tokens of
this application carry no not-before time. -/
def Jws.verify (lib : Jws) (now : Nat) (token secret : String) : Except JwtError Payload :=
  match lib.decode token secret with
  | none => .error ⟨.JsonWebTokenError, "invalid token"⟩
  | some payload =>
    match payload.exp with
    | none => .ok payload
    | some exp =>
      if now ≥ exp then .error ⟨.TokenExpiredError, "jwt expired"⟩ else .ok payload

/-- Function `issue(payload, expiresIn)` of `helpers/jwt.js`, lines 45-53, at clock time
`now`; `expiresIn` is the lifetime in seconds, `none` for `null`. -/
def issue (lib : Jws) (secret : String) (now : Nat) (payload : Claims)
    (expiresIn : Option Nat) : String :=
  match expiresIn with
  | some ttl => lib.sign now payload secret (some ttl)
  | none => lib.sign now payload secret none

/-- The `jwt` helper as the middlewares see it at clock time `now`: `process.env.secret`
and the `verify` function of the library. -/
def Jws.jwt (lib : Jws) (secret : String) (now : Nat) : Jwt :=
  ⟨secret, lib.verify now⟩

/-! ## Storage (utils/sqlite.js) -/

/-- Row of `Users` (sqlite.js, line 48). -/
structure UserRow where
  id : Int
  email : String
  password : String
  lastLogin : Nat
  name : String
  level : Int
  license : Nat
deriving DecidableEq, Repr

/-- Row of `Codes` (sqlite.js, line 51); `code` is the primary key. `used` is `none` for
NULL: the seed row of sqlite.js line 77 is inserted without a `used` value. -/
structure CodeRow where
  code : String
  used : Option Int
  created : Nat
  userid : Int
  scene : Int
deriving DecidableEq, Repr

/-- Row of `Results` (sqlite.js, line 61); the primary key is
`(userid, platform, scene)`, and platform 1 is the web client, 2 the VR client. -/
structure ResultRow where
  userid : Int
  platform : Int
  scene : Int
  date : Nat
  data : String
  signals : Nat
  signalsOK : Nat
  distances : Nat
  distancesOK : Nat
deriving DecidableEq, Repr

/-- The three tables the code handlers use, each as the list of its rows in insertion
order. -/
structure Store where
  users : List UserRow
  codes : List CodeRow
  results : List ResultRow
deriving DecidableEq, Repr

/-! ## Route handler replies -/

/-- An exception reaching the `catch` block of a route handler: an object literal thrown
by the handler, or an error of the sqlite driver, whose `code` is a string. -/
inductive Caught where
  | object (error : ErrorObject)
  | driver (code : String) (message : String)
deriving DecidableEq, Repr

/-- The `code` property of the object handed to `onError`: a number, or the string code
of a driver error. -/
inductive CodeValue where
  | number (n : Int)
  | text (s : String)
deriving DecidableEq, Repr

/-- The object `{code, message}` a route handler hands to `onError`. -/
structure Failure where
  code : CodeValue
  message : String
deriving DecidableEq, Repr

/-- The catch block `onError({code: error.code || fallback, message: error.message})`:
a zero or empty code is falsy and gives way to the fallback. -/
def report (fallback : Int) : Caught → Failure
  | .object error => ⟨.number (if error.code ≠ 0 then error.code else fallback), error.message⟩
  | .driver code message => ⟨if code ≠ "" then .text code else .number fallback, message⟩

/-- What a route handler answers: the value it passes to `response.json`, or the object
it passes to `onError`. -/
inductive Reply (α : Type) where
  | json (value : α)
  | onError (failure : Failure)
deriving DecidableEq, Repr

/-- The store a handler leaves behind and its reply. -/
structure Handled (α : Type) where
  store : Store
  reply : Reply α
deriving DecidableEq, Repr

/-- Error of the sqlite driver for a violated primary key. -/
def constraintViolation (column : String) : Caught :=
  .driver "SQLITE_CONSTRAINT" ("SQLITE_CONSTRAINT: UNIQUE constraint failed: " ++ column)

/-! ## routes/user.js: GET /user/code/:scene -/

/-- Rounding of a rational to an integer, to the nearest one and, half way between two,
to the even one. -/
def roundHalfEven (y : ℚ) : ℤ :=
  if y - ⌊y⌋ < 1 / 2 then ⌊y⌋
  else if 1 / 2 < y - ⌊y⌋ then ⌊y⌋ + 1
  else if ⌊y⌋ % 2 = 0 then ⌊y⌋ else ⌊y⌋ + 1

/-- The exponent of the spacing of the doubles around a positive rational `x`: with
`2 ^ k ≤ x < 2 ^ (k + 1)` the doubles there are the multiples of `2 ^ (k - 52)`, and
below the smallest normal number `2 ^ (-1022)` the multiples of `2 ^ (-1074)`. -/
def ulpExponent (x : ℚ) : ℤ :=
  max (Int.log 2 x) (-1022) - 52

/-- The double nearest to a positive rational, ties to the even significand (the IEEE 754
default rounding); values beyond the largest double are not treated. -/
def roundMagnitude (x : ℚ) : ℚ :=
  (roundHalfEven (x / (2 : ℚ) ^ ulpExponent x) : ℚ) * (2 : ℚ) ^ ulpExponent x

/-- The value of the double that an arithmetic operation of JavaScript returns when its
exact result is the rational `x`. -/
def roundDouble (x : ℚ) : ℚ :=
  if x = 0 then 0
  else if x < 0 then -roundMagnitude (-x)
  else roundMagnitude x

/-- A value `Math.random()` can return: a double in [0, 1), that is `m / 2 ^ e` with a
significand `m` below `2 ^ 53` and an exponent within the range of the format. -/
def IsDraw (r : ℚ) : Prop :=
  ∃ m e : ℕ, r = (m : ℚ) / (2 : ℚ) ^ e ∧ m < 2 ^ 53 ∧ e ≤ 1074 ∧ m < 2 ^ e

/-- The constant `characters` of the handler (user.js, line 87). -/
def characters : String := "0123456789"

/-- JavaScript `s.charAt(index)`: the one-character string at the index, or the empty
string when the index is out of range. -/
def charAt (s : String) (index : Int) : String :=
  if index < 0 then ""
  else
    match s.data.get? index.toNat with
    | some c => String.singleton c
    | none => ""

/-- The loop of user.js lines 89-92: six times, append
`characters.charAt(Math.floor(Math.random() * charactersLength))`. `random i` is the
value of the double returned by the call of `Math.random()` in iteration `i`; the
product is the double product, the exact product rounded to the nearest double. -/
def generateCode (random : Nat → ℚ) : String :=
  (List.range 6).foldl
    (fun code i =>
      code ++ charAt characters ⌊roundDouble (random i * (characters.length : ℚ))⌋) ""

/-- Query `SELECT code FROM Codes WHERE userid=? AND scene=? AND used=0` read with
`db.get`: the first matching row. -/
def findUnused (codes : List CodeRow) (userid scene : Int) : Option CodeRow :=
  codes.find? (fun c => c.userid == userid && c.scene == scene && c.used == some 0)

/-- Statement `INSERT INTO Codes (code, used, created, userid, scene) VALUES (...)`: the
new table and the number of changes, or the driver error when the primary key `code` is
already present. -/
def insertCode (codes : List CodeRow) (row : CodeRow) : Except Caught (List CodeRow × Nat) :=
  if codes.any (fun c => c.code == row.code) then .error (constraintViolation "Codes.code")
  else .ok (codes ++ [row], 1)

/-- Handler of `GET /user/code/:scene` (user.js lines 77-105), the operation issueOrReuse
of the specification, for the acting user `userid = request.user.id` and
`scene = request.params.scene` at clock time `now`. The reply value is the `vrcode`
field of the JSON answer. The debug `console.log` is left out. -/
def issueOrReuse (store : Store) (now : Nat) (random : Nat → ℚ) (userid scene : Int) :
    Handled String :=
  match findUnused store.codes userid scene with
  | some res => ⟨store, .json res.code⟩
  | none =>
    let code := generateCode random
    match insertCode store.codes ⟨code, some 0, now, userid, scene⟩ with
    | .error error => ⟨store, .onError (report (-2100) error)⟩
    | .ok (codes, changes) =>
      if changes ≠ 1 then
        ⟨{ store with codes := codes },
          .onError (report (-2100) (.object ⟨-2101, "Cant create code"⟩))⟩
      else ⟨{ store with codes := codes }, .json code⟩

/-! ## routes/codes.js -/

/-- The JSON answer of `GET /codes/validate/:code` without its constant `code: 0`. -/
structure Resolved where
  name : String
  scene : Int
  created : Nat
  data : Option String
deriving DecidableEq, Repr

/-- The row of `SELECT Users.id, Users.name, Codes.scene, Codes.created FROM Codes INNER
JOIN Users ON Codes.userid=Users.id WHERE Codes.code=?` read with `db.get`: the first
pair of a code row and a user row that join. -/
def findCodeOwner (store : Store) (code : String) : Option (Int × String × Int × Nat) :=
  ((store.codes.filter (fun c => c.code == code)).flatMap
    (fun c => (store.users.filter (fun u => c.userid == u.id)).map
      (fun u => (u.id, u.name, c.scene, c.created)))).head?

/-- Handler of `GET /codes/validate/:code` (codes.js lines 20-44), the operation resolve
of the specification. -/
def resolve (store : Store) (code : String) : Handled Resolved :=
  match findCodeOwner store code with
  | none => ⟨store, .onError (report (-3000) (.object ⟨-3001, "Cant find the code " ++ code⟩))⟩
  | some (id, name, scene, created) =>
    let ret2 := store.results.find?
      (fun r => r.userid == id && r.platform == 2 && r.scene == scene)
    ⟨store, .json ⟨name, scene, created, ret2.map (fun r => r.data)⟩⟩

/-- One entry of the `signals` or `distances` array of a close request; `result` is the
truthiness of its `result` property. -/
structure Entry where
  result : Bool
deriving DecidableEq, Repr

/-- Body of a close request with well-formed report lists. -/
structure CloseBody where
  signals : List Entry
  distances : List Entry
deriving DecidableEq, Repr

/-- The counting loops of codes.js lines 97-110: one increment per entry whose `result`
is truthy. -/
def countOK (entries : List Entry) : Nat :=
  entries.foldl (fun ok entry => if entry.result then ok + 1 else ok) 0

/-- Statement of codes.js line 114: delete the platform 2 rows of `Results` that join a
`Codes` row with the given code on user and scene. -/
def deletePriorResults (store : Store) (code : String) : List ResultRow :=
  store.results.filter (fun r =>
    !(store.codes.any (fun c =>
      c.code == code && r.userid == c.userid && r.platform == 2 && r.scene == c.scene)))

/-- Insertion of rows into `Results` one after the other; a row whose primary key
`(userid, platform, scene)` is present makes the statement fail with the driver error. -/
def insertResults : List ResultRow → List ResultRow → Except Caught (List ResultRow)
  | results, [] => .ok results
  | results, row :: rest =>
    if results.any (fun r =>
        r.userid == row.userid && r.platform == row.platform && r.scene == row.scene) then
      .error (constraintViolation "Results.userid, Results.platform, Results.scene")
    else insertResults (results ++ [row]) rest

/-- The rows selected by `INSERT INTO Results (...) SELECT datetime(now), 2, userid, scene,
?, ?, ?, ?, ? FROM Codes WHERE code=?` (codes.js lines 117-120). -/
def closeRows (stringify : CloseBody → String) (store : Store) (now : Nat) (code : String)
    (body : CloseBody) : List ResultRow :=
  (store.codes.filter (fun c => c.code == code)).map (fun c =>
    ⟨c.userid, 2, c.scene, now, stringify body, body.signals.length, countOK body.signals,
      body.distances.length, countOK body.distances⟩)

/-- The reserved code of codes.js line 126, which a close does not delete. -/
def sentinel : String := "778199"

/-- Handler of `POST /codes/close/:code` (codes.js lines 91-137), the operation close of
the specification, at clock time `now`; `stringify` is `JSON.stringify` on request
bodies. Every statement is committed on its own: the handler opens no transaction. The
reply value is the `message` field of the JSON answer. -/
def close (stringify : CloseBody → String) (store : Store) (now : Nat) (code : String)
    (body : CloseBody) : Handled String :=
  let results1 := deletePriorResults store code
  let rows := closeRows stringify store now code body
  match insertResults results1 rows with
  | .error error => ⟨{ store with results := results1 }, .onError (report (-3200) error)⟩
  | .ok results2 =>
    if rows.length ≠ 1 then
      ⟨{ store with results := results2 },
        .onError (report (-3200) (.object ⟨-3202, "Cant find the code " ++ code⟩))⟩
    else if code ≠ sentinel then
      let codes1 := store.codes.filter (fun c => c.code != code)
      if store.codes.length - codes1.length ≠ 1 then
        ⟨{ store with results := results2, codes := codes1 },
          .onError (report (-3200) (.object ⟨-3203, "Cant find the code " ++ code⟩))⟩
      else
        ⟨{ store with results := results2, codes := codes1 },
          .json ("Code " ++ code ++ " closed.")⟩
    else
      ⟨{ store with results := results2 }, .json ("Code " ++ code ++ " closed.")⟩

/-! ## Sequences of calls -/

/-- One call of the session-code registry: issueOrReuse or close, with its inputs. -/
inductive Call where
  | issueOrReuse (now : Nat) (random : Nat → ℚ) (userid scene : Int)
  | close (now : Nat) (code : String) (body : CloseBody)

/-- The store after one call. -/
def Call.run (stringify : CloseBody → String) (store : Store) : Call → Store
  | .issueOrReuse now random userid scene =>
    (Roads.issueOrReuse store now random userid scene).store
  | .close now code body => (Roads.close stringify store now code body).store

/-- The store after a sequence of calls, run one after the other. -/
def runCalls (stringify : CloseBody → String) (store : Store) (calls : List Call) : Store :=
  calls.foldl (Call.run stringify) store

/-- At most one row of `Codes` with `used = 0` for every pair of user and scene. -/
def AtMostOneUnused (store : Store) : Prop :=
  ∀ userid scene : Int,
    (store.codes.filter
      (fun c => c.userid == userid && c.scene == scene && c.used == some 0)).length ≤ 1

/-! ## Sample data for tokens and stores -/

/-- A signing primitive defined on one payload, the claims of user 7 with level 3 issued
at time 1000 for ten days, and one secret; every other token fails to decode. -/
def sampleJws : Jws where
  encode := fun payload secret =>
    if payload = ⟨7, 3, 1000, some 865000⟩ ∧ secret = "s3cret" then "header.payload.signature"
    else "unsigned"
  decode := fun token secret =>
    if token = "header.payload.signature" ∧ secret = "s3cret" then
      some ⟨7, 3, 1000, some 865000⟩
    else none

/-- Ten days in seconds, the lifetime `10d` used by every handler that issues a token. -/
def tenDays : Nat := 864000

/-- A store whose only code, held by user 99 for scene 1, is the string of six zeros. -/
def collisionStore : Store :=
  ⟨[], [⟨"000000", some 0, 10, 99, 1⟩], []⟩

/-- A store with user 7 and no codes. -/
def emptyCodesStore : Store :=
  ⟨[⟨7, "ana@example.org", "hash", 0, "Ana", 0, 100⟩], [], []⟩

/-- The scenario of section 8 of the specification: user 7 holds the code 123456 for
scene 3 and has an earlier VR result for that scene. -/
def scenarioStore : Store :=
  ⟨[⟨7, "ana@example.org", "hash", 0, "Ana", 0, 100⟩],
    [⟨"123456", some 0, 50, 7, 3⟩],
    [⟨7, 2, 3, 20, "old", 5, 5, 5, 5⟩, ⟨7, 1, 3, 21, "web", 4, 4, 4, 4⟩]⟩

/-- The report of the scenario: two signals, one of them passed, and one passed
distance. -/
def scenarioBody : CloseBody :=
  ⟨[⟨true⟩, ⟨false⟩], [⟨true⟩]⟩

/-- A serialiser standing for `JSON.stringify` in the examples: it tells bodies apart by
their numbers of entries. -/
def sampleStringify (body : CloseBody) : String :=
  "signals:" ++ toString body.signals.length ++ ",distances:" ++
    toString body.distances.length

/-- A store in which the reserved code belongs to user 7, who is a row of Users. -/
def sentinelStore : Store :=
  ⟨[⟨7, "ana@example.org", "hash", 0, "Ana", 0, 100⟩], [⟨"778199", some 0, 50, 7, 3⟩], []⟩

/-- A store in which the reserved code belongs to user 5, who is not a row of Users. -/
def danglingSentinelStore : Store :=
  ⟨[⟨7, "ana@example.org", "hash", 0, "Ana", 0, 100⟩], [⟨"778199", some 0, 50, 5, 3⟩], []⟩

/-! ## Storage failures -/

/-- An error raised by the sqlite driver when a statement fails: its string code
(`SQLITE_BUSY`, `SQLITE_IOERR`, ...) and its message. -/
structure DriverError where
  code : String
  message : String
deriving DecidableEq, Repr

/-- The exception a failed statement throws into the handler. -/
def DriverError.caught (error : DriverError) : Caught :=
  .driver error.code error.message

/-- Storage failures during one close: for each of the three statements of the handler,
the driver error it fails with, or `none` when it runs normally. -/
structure CloseFaults where
  deletePrior : Option DriverError
  insertResult : Option DriverError
  deleteCode : Option DriverError
deriving DecidableEq, Repr

/-- Handler of `POST /codes/close/:code` (codes.js lines 91-137) under storage failures.
A failing statement changes nothing and throws into the catch block; the statements that
ran before it stay applied, since the handler opens no transaction. -/
def closeUnder (faults : CloseFaults) (stringify : CloseBody → String) (store : Store)
    (now : Nat) (code : String) (body : CloseBody) : Handled String :=
  match faults.deletePrior with
  | some failure => ⟨store, .onError (report (-3200) failure.caught)⟩
  | none =>
    let results1 := deletePriorResults store code
    let rows := closeRows stringify store now code body
    match faults.insertResult with
    | some failure =>
      ⟨{ store with results := results1 }, .onError (report (-3200) failure.caught)⟩
    | none =>
      match insertResults results1 rows with
      | .error error => ⟨{ store with results := results1 }, .onError (report (-3200) error)⟩
      | .ok results2 =>
        if rows.length ≠ 1 then
          ⟨{ store with results := results2 },
            .onError (report (-3200) (.object ⟨-3202, "Cant find the code " ++ code⟩))⟩
        else if code ≠ sentinel then
          match faults.deleteCode with
          | some failure =>
            ⟨{ store with results := results2 }, .onError (report (-3200) failure.caught)⟩
          | none =>
            let codes1 := store.codes.filter (fun c => c.code != code)
            if store.codes.length - codes1.length ≠ 1 then
              ⟨{ store with results := results2, codes := codes1 },
                .onError (report (-3200) (.object ⟨-3203, "Cant find the code " ++ code⟩))⟩
            else
              ⟨{ store with results := results2, codes := codes1 },
                .json ("Code " ++ code ++ " closed.")⟩
        else
          ⟨{ store with results := results2 }, .json ("Code " ++ code ++ " closed.")⟩

/-- Storage failures during one `GET /user/code/:scene`: the lookup and the insert. -/
structure IssueFaults where
  select : Option DriverError
  insert : Option DriverError
deriving DecidableEq, Repr

/-- Handler of `GET /user/code/:scene` (user.js lines 77-105) under storage failures. -/
def issueOrReuseUnder (faults : IssueFaults) (store : Store) (now : Nat) (random : Nat → ℚ)
    (userid scene : Int) : Handled String :=
  match faults.select with
  | some failure => ⟨store, .onError (report (-2100) failure.caught)⟩
  | none =>
    match findUnused store.codes userid scene with
    | some res => ⟨store, .json res.code⟩
    | none =>
      match faults.insert with
      | some failure => ⟨store, .onError (report (-2100) failure.caught)⟩
      | none =>
        let code := generateCode random
        match insertCode store.codes ⟨code, some 0, now, userid, scene⟩ with
        | .error error => ⟨store, .onError (report (-2100) error)⟩
        | .ok (codes, changes) =>
          if changes ≠ 1 then
            ⟨{ store with codes := codes },
              .onError (report (-2100) (.object ⟨-2101, "Cant create code"⟩))⟩
          else ⟨{ store with codes := codes }, .json code⟩

/-- Storage failures during one `GET /codes/validate/:code`: the join and the lookup of
the prior result. -/
structure ResolveFaults where
  selectOwner : Option DriverError
  selectResult : Option DriverError
deriving DecidableEq, Repr

/-- Handler of `GET /codes/validate/:code` (codes.js lines 20-44) under storage
failures. -/
def resolveUnder (faults : ResolveFaults) (store : Store) (code : String) : Handled Resolved :=
  match faults.selectOwner with
  | some failure => ⟨store, .onError (report (-3000) failure.caught)⟩
  | none =>
    match findCodeOwner store code with
    | none =>
      ⟨store, .onError (report (-3000) (.object ⟨-3001, "Cant find the code " ++ code⟩))⟩
    | some (id, name, scene, created) =>
      match faults.selectResult with
      | some failure => ⟨store, .onError (report (-3000) failure.caught)⟩
      | none =>
        let ret2 := store.results.find?
          (fun r => r.userid == id && r.platform == 2 && r.scene == scene)
        ⟨store, .json ⟨name, scene, created, ret2.map (fun r => r.data)⟩⟩

/-- Handler of `GET /codes/image/:code` (codes.js lines 53-73), the operation
fetchOwnerImage of the specification, under a storage failure of its one query. The
reply value is the path handed to `response.sendFile`. The debug `console.log` is left
out. -/
def fetchOwnerImageUnder (fault : Option DriverError) (store : Store) (code : String) :
    Handled String :=
  match fault with
  | some failure => ⟨store, .onError (report (-3100) failure.caught)⟩
  | none =>
    match store.codes.find? (fun c => c.code == code) with
    | none =>
      ⟨store, .onError (report (-3100) (.object ⟨-3101, "Cant find the code " ++ code⟩))⟩
    | some ret => ⟨store, .json ("/app/images/" ++ toString ret.userid ++ ".img")⟩

/-! ## server.js: the global error handler -/

/-- An error value reaching the global error handler: its `code`, `message` and
`status` properties, `none` for an absent property. -/
structure ErrorValue where
  code : Option CodeValue
  message : Option String
  status : Option Nat
deriving DecidableEq, Repr

/-- The error value a route handler hands over with `onError(failure)`. -/
def Failure.toError (failure : Failure) : ErrorValue :=
  ⟨some failure.code, some failure.message, none⟩

/-- The error value a middleware hands over by throwing: an object literal has a code and
a message, a `TypeError` a message only. -/
def Thrown.toError : Thrown → ErrorValue
  | .object error => ⟨some (.number error.code), some error.message, none⟩
  | .typeError message => ⟨none, some message, none⟩

/-- The JSON body of an error response (server.js lines 65-69). -/
structure Envelope where
  code : CodeValue
  message : String
  timestamp : Nat
deriving DecidableEq, Repr

/-- An error response: HTTP status and envelope. -/
structure ErrorResponse where
  status : Nat
  body : Envelope
deriving DecidableEq, Repr

/-- JavaScript truthiness of a `code` property: absent, zero and the empty string are
falsy. -/
def codeTruthy : Option CodeValue → Bool
  | none => false
  | some (.number n) => n != 0
  | some (.text s) => s != ""

/-- JavaScript `error.code < 0`. `toNumber` is the conversion of a non-empty string to a
number, `none` for NaN; the empty string converts to 0, and an absent code converts to
NaN and compares false. -/
def codeBelowZero (toNumber : String → Option Int) : Option CodeValue → Bool
  | none => false
  | some (.number n) => decide (n < 0)
  | some (.text s) =>
    if s = "" then false
    else
      match toNumber s with
      | some n => decide (n < 0)
      | none => false

/-- The global error handler of server.js lines 63-82 at clock time `now`:
the envelope is `{code: error.code || -999, message: error.message || 'Internal server
error', timestamp}` and the status is
`error.status || (error.code < 0 ? 400 : 500)`. The log line is left out. -/
def errorHandler (toNumber : String → Option Int) (now : Nat) (error : ErrorValue) :
    ErrorResponse :=
  let code : CodeValue :=
    match error.code with
    | some value => if codeTruthy (some value) then value else .number (-999)
    | none => .number (-999)
  let message : String :=
    match error.message with
    | some text => if text != "" then text else "Internal server error"
    | none => "Internal server error"
  let derived : Nat := if codeBelowZero toNumber error.code then 400 else 500
  let statusCode : Nat :=
    match error.status with
    | some status => if status != 0 then status else derived
    | none => derived
  ⟨statusCode, ⟨code, message, now⟩⟩

/-- The error response a client gets for the reply of a route handler, `none` when the
handler answered with `response.json`. -/
def errorResponseOf {α : Type} (toNumber : String → Option Int) (now : Nat) :
    Reply α → Option ErrorResponse
  | .onError failure => some (errorHandler toNumber now failure.toError)
  | .json _ => none

/-! ## Responses with headers -/

/-- A response of a route handler together with the headers it sets with
`response.header` and the store it leaves. -/
structure Served (α : Type) where
  store : Store
  headers : List (String × String)
  reply : Reply α
deriving DecidableEq, Repr

/-- The JSON answer of `GET /user/`. -/
structure UserInfo where
  name : String
  level : Int
  license : Nat
deriving DecidableEq, Repr

/-- Handler of `GET /user/` (user.js lines 34-58) at clock time `now` for the principal
`user = request.user`: read the user row, stamp `lastLogin`, and answer with a token
issued for `{id: request.user.id, level: ret.level}` and ten days in the `auth-token`
header. -/
def getUser (lib : Jws) (secret : String) (store : Store) (now : Nat) (user : Payload) :
    Served UserInfo :=
  match store.users.find? (fun u => u.id == user.id) with
  | none =>
    ⟨store, [], .onError (report (-2000) (.object ⟨-2002, "User not found or Bad license"⟩))⟩
  | some ret =>
    let users1 := store.users.map
      (fun u => if u.id == user.id then { u with lastLogin := now } else u)
    let changes := (store.users.filter (fun u => u.id == user.id)).length
    if changes ≠ 1 then
      ⟨{ store with users := users1 }, [],
        .onError (report (-2000) (.object ⟨-2001, "Cant update lastLogin"⟩))⟩
    else
      ⟨{ store with users := users1 },
        [("auth-token", issue lib secret now ⟨user.id, ret.level⟩ (some tenDays))],
        .json ⟨ret.name, ret.level, ret.license⟩⟩

/-- The response of `GET /user/code/:scene` (user.js lines 77-105) with its headers: the
handler answers with `response.json` and sets no header. -/
def serveUserCode (store : Store) (now : Nat) (random : Nat → ℚ) (userid scene : Int) :
    Served String :=
  ⟨(issueOrReuse store now random userid scene).store, [],
    (issueOrReuse store now random userid scene).reply⟩

/-- Row of `Modules` (sqlite.js, line 55). -/
structure ModuleRow where
  userid : Int
  module : Int
  progress : Option Int
  quizz : Option Int
deriving DecidableEq, Repr

/-- Handler of `GET /modules/` (modules.js lines 26-39): the rows of the table `Modules`
of the acting user; it answers with `response.json` and sets no header. -/
def getModules (modules : List ModuleRow) (store : Store) (userid : Int) :
    Served (List ModuleRow) :=
  ⟨store, [], .json (modules.filter (fun m => m.userid == userid))⟩

/-- No storage failure during a close. -/
def noCloseFaults : CloseFaults := ⟨none, none, none⟩

/-- The driver error of a database that is locked by another connection. -/
def busyError : DriverError :=
  ⟨"SQLITE_BUSY", "SQLITE_BUSY: database is locked"⟩

/-- The driver error of a failed disk write. -/
def diskError : DriverError :=
  ⟨"SQLITE_IOERR", "SQLITE_IOERR: disk I/O error"⟩

/-- The value of a list of decimal digits read after the value `acc`, `none` when a
character is not a digit. -/
def digitsValue : List Char → Nat → Option Nat
  | [], acc => some acc
  | c :: rest, acc =>
    if c.isDigit then digitsValue rest (acc * 10 + (c.toNat - 48)) else none

/-- A conversion of strings to numbers for the examples: decimal integers with an
optional minus sign convert, everything else is NaN. -/
def sampleToNumber (s : String) : Option Int :=
  match s.data with
  | [] => none
  | '-' :: rest => if rest = [] then none else (digitsValue rest 0).map (fun n => -(n : Int))
  | chars => (digitsValue chars 0).map (fun n => (n : Int))

/-- Two stores that differ only in the id of the user named Ana, owner of the code
123456. -/
def anaStore (id : Int) : Store :=
  ⟨[⟨id, "ana@example.org", "hash", 0, "Ana", 0, 100⟩], [⟨"123456", some 0, 50, id, 3⟩], []⟩

/-- Random draws whose first six values are 0 and whose later values are one half. -/
def zerosThenHalves (i : Nat) : ℚ :=
  if i < 6 then 0 else 1 / 2

/-- The double nearest to seven tenths, `0.7` in JavaScript; ten times its exact value
lies half way between two doubles, the upper one being 7. -/
def sevenTenths : ℚ := 3152519739159347 / 2 ^ 52

/-- The error values the application hands to the global error handler.

* `onError`: a catch block of a route handler; each of them calls
  `onError({code: error.code || -N, message: error.message})` with a negative literal;
* `runtime`: the same call for a caught runtime error, which has no code;
* `rejected`: a value thrown by a middleware of a mounted pipeline.

The errors of the libraries carry a status of their own. -/
inductive Delivered (jwt : Jwt) : ErrorValue → Prop where
  | onError (fallback : Int) (caught : Caught) (hfallback : fallback < 0) :
    Delivered jwt (report fallback caught).toError
  | runtime (fallback : Int) (message : String) (hfallback : fallback < 0) :
    Delivered jwt ⟨some (.number fallback), some message, none⟩
  | rejected (path : String) (request : Request) (run : Run) (value : Thrown)
    (hserve : serve jwt path request = some run) (houtcome : run.outcome = .rejected value) :
    Delivered jwt (Thrown.toError value)

/-! ## Helper lemmas -/

theorem validateSupervisorLevel_of_gt (request : Request) (user : Payload) (next : Next)
    (huser : request.user = some user) (hlevel : user.level > 10) :
    validateSupervisorLevel request next =
      { request := request, nextCalls := [none], validateCalls := [], console := [],
        thrown := next request } := by
  simp [validateSupervisorLevel, huser, hlevel]

theorem validateSupervisorLevel_of_le (request : Request) (user : Payload) (next : Next)
    (huser : request.user = some user) (hlevel : user.level ≤ 10) :
    validateSupervisorLevel request next =
      { request := request, nextCalls := [], validateCalls := [],
        console := ["Access denied - User level " ++ toString user.level ++
          " < required 11 (Supervisor) for " ++ request.originalUrl],
        thrown := some (.object supervisorRequired) } := by
  have h : ¬ user.level > 10 := by omega
  simp [validateSupervisorLevel, huser, h]

theorem validateMasterLevel_of_gt (request : Request) (user : Payload) (next : Next)
    (huser : request.user = some user) (hlevel : user.level > 100) :
    validateMasterLevel request next =
      { request := request, nextCalls := [none], validateCalls := [], console := [],
        thrown := next request } := by
  simp [validateMasterLevel, huser, hlevel]

theorem validateMasterLevel_of_le (request : Request) (user : Payload) (next : Next)
    (huser : request.user = some user) (hlevel : user.level ≤ 100) :
    validateMasterLevel request next =
      { request := request, nextCalls := [], validateCalls := [],
        console := ["Access denied - User level " ++ toString user.level ++
          " < required 101 (Master) for " ++ request.originalUrl],
        thrown := some (.object masterRequired) } := by
  have h : ¬ user.level > 100 := by omega
  simp [validateMasterLevel, huser, h]

theorem truthy_some (token : String) (hne : token ≠ "") : truthy (some token) = true := by
  simp [truthy, hne]

theorem validateToken_of_absent (jwt : Jwt) (request : Request) (next : Next)
    (habsent : request.header "auth-token" = none) :
    validateToken jwt request next =
      { request := request, nextCalls := [], validateCalls := [], console := [],
        thrown := some (.object (tokenRequired request.originalUrl)) } := by
  simp [validateToken, habsent, truthy]

theorem validateToken_of_invalid (jwt : Jwt) (request : Request) (next : Next)
    (token : String) (cause : JwtError)
    (hheader : request.header "auth-token" = some token) (hne : token ≠ "")
    (hfail : jwt.validate token = .error cause) :
    validateToken jwt request next =
      { request := request, nextCalls := [], validateCalls := [token], console := [],
        thrown := some (.object invalidToken) } := by
  simp [validateToken, hheader, truthy_some token hne, hfail]

theorem validateToken_of_valid (jwt : Jwt) (request : Request) (next : Next)
    (token : String) (payload : Payload)
    (hheader : request.header "auth-token" = some token) (hne : token ≠ "")
    (hvalid : jwt.validate token = .ok payload)
    (hnext : next { request with user := some payload } = none) :
    validateToken jwt request next =
      { request := { request with user := some payload }, nextCalls := [none],
        validateCalls := [token], console := [], thrown := none } := by
  simp [validateToken, hheader, truthy_some token hne, hvalid, hnext]

/-! ## Level checks (validateLevel.js) -/

/-- C1: for a request whose principal has level L and a next callback that returns,
validateSupervisorLevel calls next once and throws nothing if and only if L > 10, it
calls next at all only if L > 10, and for L <= 10 it does not call next and throws
the object with code -6 and message Insufficient user level (Supervisor required). -/
theorem validateSupervisorLevel_threshold (request : Request) (user : Payload) (next : Next)
    (huser : request.user = some user) (hnext : next request = none) :
    ((validateSupervisorLevel request next).passed ↔ user.level > 10) ∧
    ((validateSupervisorLevel request next).nextCalls ≠ [] ↔ user.level > 10) ∧
    (user.level ≤ 10 →
      (validateSupervisorLevel request next).rejectedWith
        ⟨-6, "Insufficient user level (Supervisor required)."⟩) := by
  by_cases hlevel : user.level > 10
  · rw [validateSupervisorLevel_of_gt request user next huser hlevel]
    refine ⟨?_, ?_, ?_⟩
    · simp [Effects.passed, hnext, hlevel]
    · simp [hlevel]
    · intro hle; omega
  · have hle : user.level ≤ 10 := by omega
    rw [validateSupervisorLevel_of_le request user next huser hle]
    refine ⟨?_, ?_, ?_⟩
    · simp [Effects.passed, hlevel]
    · simp [hlevel]
    · intro _; simp [Effects.rejectedWith, supervisorRequired]

/-- Witness of C1 at a level 10 principal. -/
theorem validateSupervisorLevel_threshold_witness :
    (sampleRequest [] (some ⟨8, 10, 1000, none⟩)).user = some ⟨8, 10, 1000, none⟩ ∧
    routerNext (sampleRequest [] (some ⟨8, 10, 1000, none⟩)) = none ∧
    (validateSupervisorLevel (sampleRequest [] (some ⟨8, 10, 1000, none⟩))
      routerNext).rejectedWith ⟨-6, "Insufficient user level (Supervisor required)."⟩ :=
  ⟨rfl, rfl,
    (validateSupervisorLevel_threshold (sampleRequest [] (some ⟨8, 10, 1000, none⟩))
      ⟨8, 10, 1000, none⟩ routerNext rfl rfl).2.2 (by decide)⟩

/-- C8: for a request whose principal has level L and a next callback that returns,
validateMasterLevel calls next once and throws nothing if and only if L > 100, it
calls next at all only if L > 100, and for L <= 100 it does not call next and throws
the object with code -7 and message Insufficient user level (Master required), which
differs from the Supervisor rejection (code -6) both as an object and in its code. -/
theorem validateMasterLevel_threshold (request : Request) (user : Payload) (next : Next)
    (huser : request.user = some user) (hnext : next request = none) :
    ((validateMasterLevel request next).passed ↔ user.level > 100) ∧
    ((validateMasterLevel request next).nextCalls ≠ [] ↔ user.level > 100) ∧
    (user.level ≤ 100 →
      (validateMasterLevel request next).rejectedWith
        ⟨-7, "Insufficient user level (Master required)."⟩) ∧
    masterRequired ≠ supervisorRequired ∧
    masterRequired.code = -7 ∧ supervisorRequired.code = -6 ∧
    masterRequired.code ≠ supervisorRequired.code := by
  refine ⟨?_, ?_, ?_, by decide, rfl, rfl, by decide⟩
  · by_cases hlevel : user.level > 100
    · rw [validateMasterLevel_of_gt request user next huser hlevel]
      simp [Effects.passed, hnext, hlevel]
    · rw [validateMasterLevel_of_le request user next huser (by omega)]
      simp [Effects.passed, hlevel]
  · by_cases hlevel : user.level > 100
    · rw [validateMasterLevel_of_gt request user next huser hlevel]
      simp [hlevel]
    · rw [validateMasterLevel_of_le request user next huser (by omega)]
      simp [hlevel]
  · intro hle
    rw [validateMasterLevel_of_le request user next huser hle]
    simp [Effects.rejectedWith, masterRequired]

/-- Witness of C8 at a level 100 principal. -/
theorem validateMasterLevel_threshold_witness :
    (sampleRequest [] (some ⟨8, 100, 1000, none⟩)).user = some ⟨8, 100, 1000, none⟩ ∧
    routerNext (sampleRequest [] (some ⟨8, 100, 1000, none⟩)) = none ∧
    (validateMasterLevel (sampleRequest [] (some ⟨8, 100, 1000, none⟩))
      routerNext).rejectedWith ⟨-7, "Insufficient user level (Master required)."⟩ :=
  ⟨rfl, rfl,
    (validateMasterLevel_threshold (sampleRequest [] (some ⟨8, 100, 1000, none⟩))
      ⟨8, 100, 1000, none⟩ routerNext rfl rfl).2.2.1 (by decide)⟩

/-- C9: validateSupervisorLevel is monotonic in the level. For two requests with
principals of levels L and M and a next callback that returns: if the check passes for
L and M > L then it passes for M, and if the check rejects L (code -6) and M < L then
it rejects M (code -6). -/
theorem validateSupervisorLevel_monotone (request1 request2 : Request)
    (user1 user2 : Payload) (next : Next)
    (huser1 : request1.user = some user1) (huser2 : request2.user = some user2)
    (hnext : ∀ r, next r = none) :
    ((validateSupervisorLevel request1 next).passed → user2.level > user1.level →
      (validateSupervisorLevel request2 next).passed) ∧
    ((validateSupervisorLevel request1 next).rejectedWith supervisorRequired →
      user2.level < user1.level →
      (validateSupervisorLevel request2 next).rejectedWith supervisorRequired) := by
  have t1 := validateSupervisorLevel_of_gt request1 user1 next huser1
  have f1 := validateSupervisorLevel_of_le request1 user1 next huser1
  constructor
  · intro hpass hgt
    have h1 : user1.level > 10 := by
      by_contra hcon
      rw [f1 (by omega)] at hpass
      simp [Effects.passed] at hpass
    rw [validateSupervisorLevel_of_gt request2 user2 next huser2 (by omega)]
    simp [Effects.passed, hnext]
  · intro hrej hlt
    have h1 : user1.level ≤ 10 := by
      by_contra hcon
      rw [t1 (by omega)] at hrej
      simp [Effects.rejectedWith] at hrej
    rw [validateSupervisorLevel_of_le request2 user2 next huser2 (by omega)]
    simp [Effects.rejectedWith]

/-- Witness of C9: level 11 passes, hence level 12 passes. -/
theorem validateSupervisorLevel_monotone_witness :
    (validateSupervisorLevel (sampleRequest [] (some ⟨7, 11, 1000, none⟩)) routerNext).passed ∧
    (validateSupervisorLevel (sampleRequest [] (some ⟨9, 12, 1000, none⟩)) routerNext).passed :=
  ⟨by decide,
    (validateSupervisorLevel_monotone (sampleRequest [] (some ⟨7, 11, 1000, none⟩))
      (sampleRequest [] (some ⟨9, 12, 1000, none⟩)) ⟨7, 11, 1000, none⟩ ⟨9, 12, 1000, none⟩
      routerNext rfl rfl (fun _ => rfl)).1 (by decide) (by decide)⟩

/-- C10: higher tiers include lower tiers. For every request with a principal and a
next callback that returns, if validateMasterLevel passes then validateSupervisorLevel
passes, and if validateSupervisorLevel rejects (code -6) then validateMasterLevel
rejects (code -7). -/
theorem master_implies_supervisor (request : Request) (user : Payload) (next : Next)
    (huser : request.user = some user) (hnext : next request = none) :
    ((validateMasterLevel request next).passed →
      (validateSupervisorLevel request next).passed) ∧
    ((validateSupervisorLevel request next).rejectedWith supervisorRequired →
      (validateMasterLevel request next).rejectedWith masterRequired) := by
  constructor
  · intro hpass
    have h1 : user.level > 100 := by
      by_contra hcon
      rw [validateMasterLevel_of_le request user next huser (by omega)] at hpass
      simp [Effects.passed] at hpass
    rw [validateSupervisorLevel_of_gt request user next huser (by omega)]
    simp [Effects.passed, hnext]
  · intro hrej
    have h1 : user.level ≤ 10 := by
      by_contra hcon
      rw [validateSupervisorLevel_of_gt request user next huser (by omega)] at hrej
      simp [Effects.rejectedWith] at hrej
    rw [validateMasterLevel_of_le request user next huser (by omega)]
    simp [Effects.rejectedWith]

/-- Witness of C10 at a level 999 principal, the level of the seeded administrators. -/
theorem master_implies_supervisor_witness :
    (validateMasterLevel (sampleRequest [] (some ⟨1, 999, 1000, none⟩)) routerNext).passed ∧
    (validateSupervisorLevel (sampleRequest [] (some ⟨1, 999, 1000, none⟩)) routerNext).passed :=
  ⟨by decide,
    (master_implies_supervisor (sampleRequest [] (some ⟨1, 999, 1000, none⟩))
      ⟨1, 999, 1000, none⟩ routerNext rfl rfl).1 (by decide)⟩

/-! ## Token validation (validateToken.js) -/

/-- C2: for every request without an auth-token header, validateToken throws the object
with code -8 (its message names the requested URL), makes no call to jwt.validate and no
call to next; and that object differs, as an object and in its code, from the object
with code -9 thrown for any request whose token is present but rejected by
jwt.validate. -/
theorem validateToken_missing_token (jwt : Jwt) (request : Request) (next : Next)
    (habsent : request.header "auth-token" = none) :
    (validateToken jwt request next).thrown =
      some (.object ⟨-8, "Access denied. Token required for: " ++ request.originalUrl⟩) ∧
    (validateToken jwt request next).validateCalls = [] ∧
    (validateToken jwt request next).nextCalls = [] ∧
    (∀ (other : Request) (otherNext : Next) (token : String) (cause : JwtError),
      other.header "auth-token" = some token → token ≠ "" →
      jwt.validate token = .error cause →
      (validateToken jwt other otherNext).thrown =
        some (.object ⟨-9, "Invalid or expired token"⟩) ∧
      (validateToken jwt request next).thrown ≠ (validateToken jwt other otherNext).thrown ∧
      (tokenRequired request.originalUrl).code ≠ invalidToken.code) := by
  rw [validateToken_of_absent jwt request next habsent]
  refine ⟨rfl, rfl, rfl, ?_⟩
  intro other otherNext token cause hheader hne hfail
  rw [validateToken_of_invalid jwt other otherNext token cause hheader hne hfail]
  refine ⟨rfl, ?_, ?_⟩ <;> simp [tokenRequired, invalidToken]

/-- Witness of C2: a request with no headers at all. -/
theorem validateToken_missing_token_witness :
    (sampleRequest [] none).header "auth-token" = none ∧
    (validateToken sampleJwt (sampleRequest [] none) routerNext).thrown =
      some (.object ⟨-8, "Access denied. Token required for: /license/list/10/0"⟩) :=
  ⟨rfl, (validateToken_missing_token sampleJwt (sampleRequest [] none) routerNext rfl).1⟩

/-- C3: for any two requests carrying non-empty tokens that jwt.validate rejects,
whatever the two causes, the two URLs and the two next callbacks, validateToken throws
the same object, code -9 and message Invalid or expired token, and calls next in
neither; the thrown value is a constant, so it does not depend on the cause. -/
theorem validateToken_invalid_uniform (jwt : Jwt) (request1 request2 : Request)
    (next1 next2 : Next) (token1 token2 : String) (cause1 cause2 : JwtError)
    (hheader1 : request1.header "auth-token" = some token1) (hne1 : token1 ≠ "")
    (hheader2 : request2.header "auth-token" = some token2) (hne2 : token2 ≠ "")
    (hfail1 : jwt.validate token1 = .error cause1)
    (hfail2 : jwt.validate token2 = .error cause2) :
    (validateToken jwt request1 next1).thrown =
      some (.object ⟨-9, "Invalid or expired token"⟩) ∧
    (validateToken jwt request2 next2).thrown =
      some (.object ⟨-9, "Invalid or expired token"⟩) ∧
    (validateToken jwt request1 next1).thrown = (validateToken jwt request2 next2).thrown ∧
    (validateToken jwt request1 next1).nextCalls = [] ∧
    (validateToken jwt request2 next2).nextCalls = [] := by
  rw [validateToken_of_invalid jwt request1 next1 token1 cause1 hheader1 hne1 hfail1,
    validateToken_of_invalid jwt request2 next2 token2 cause2 hheader2 hne2 hfail2]
  exact ⟨rfl, rfl, rfl, rfl, rfl⟩

/-- Witness of C3: an expired token on one URL and a badly signed token on another. -/
theorem validateToken_invalid_uniform_witness :
    sampleJwt.validate "old" = .error ⟨.TokenExpiredError, "jwt expired"⟩ ∧
    sampleJwt.validate "forged" = .error ⟨.JsonWebTokenError, "invalid signature"⟩ ∧
    (validateToken sampleJwt (sampleRequest [("auth-token", "old")] none) routerNext).thrown =
      (validateToken sampleJwt ⟨"GET", "/user/", [("auth-token", "forged")], "", none⟩
        routerNext).thrown :=
  ⟨rfl, rfl,
    (validateToken_invalid_uniform sampleJwt (sampleRequest [("auth-token", "old")] none)
      ⟨"GET", "/user/", [("auth-token", "forged")], "", none⟩ routerNext routerNext
      "old" "forged" ⟨.TokenExpiredError, "jwt expired"⟩
      ⟨.JsonWebTokenError, "invalid signature"⟩
      (by decide) (by decide) (by decide) (by decide) rfl rfl).2.2.1⟩

/-- C4: for every request whose auth-token header holds a non-empty token that
jwt.validate accepts with payload p, and a next callback that returns, validateToken
sets request.user to p, calls next exactly once with no error argument, throws nothing,
and leaves the method, URL, headers and body of the request unchanged. -/
theorem validateToken_attaches_principal (jwt : Jwt) (request : Request) (next : Next)
    (token : String) (p : Payload)
    (hheader : request.header "auth-token" = some token) (hne : token ≠ "")
    (hvalid : jwt.validate token = .ok p)
    (hnext : next { request with user := some p } = none) :
    (validateToken jwt request next).request.user = some p ∧
    (validateToken jwt request next).nextCalls = [none] ∧
    (validateToken jwt request next).thrown = none ∧
    (validateToken jwt request next).request = { request with user := some p } ∧
    (validateToken jwt request next).request.method = request.method ∧
    (validateToken jwt request next).request.originalUrl = request.originalUrl ∧
    (validateToken jwt request next).request.headers = request.headers ∧
    (validateToken jwt request next).request.body = request.body := by
  rw [validateToken_of_valid jwt request next token p hheader hne hvalid hnext]
  exact ⟨rfl, rfl, rfl, rfl, rfl, rfl, rfl, rfl⟩

/-- Witness of C4: the token good decodes to the principal with id 7 and level 11. -/
theorem validateToken_attaches_principal_witness :
    sampleJwt.validate "good" = .ok ⟨7, 11, 1000, some 865000⟩ ∧
    (validateToken sampleJwt (sampleRequest [("auth-token", "good")] none)
      routerNext).request.user = some ⟨7, 11, 1000, some 865000⟩ :=
  ⟨rfl,
    (validateToken_attaches_principal sampleJwt (sampleRequest [("auth-token", "good")] none)
      routerNext "good" ⟨7, 11, 1000, some 865000⟩ (by decide) (by decide) rfl
      rfl).1⟩

/-! ## Pipelines (router.js) -/

theorem dispatch_of_thrown (jwt : Jwt) (s : Stage) (rest : List Handler) (request : Request)
    (v : Thrown) (hthrown : (s.call jwt request routerNext).thrown = some v) :
    dispatch jwt (.stage s :: rest) request =
      ⟨[.stage s], (s.call jwt request routerNext).console,
        (s.call jwt request routerNext).validateCalls, .rejected v⟩ := by
  simp [dispatch, hthrown]

theorem dispatch_of_passed (jwt : Jwt) (s : Stage) (rest : List Handler) (request : Request)
    (hcalls : (s.call jwt request routerNext).nextCalls = [none])
    (hthrown : (s.call jwt request routerNext).thrown = none) :
    dispatch jwt (.stage s :: rest) request =
      ⟨.stage s :: (dispatch jwt rest (s.call jwt request routerNext).request).ran,
        (s.call jwt request routerNext).console ++
          (dispatch jwt rest (s.call jwt request routerNext).request).console,
        (s.call jwt request routerNext).validateCalls ++
          (dispatch jwt rest (s.call jwt request routerNext).request).validateCalls,
        (dispatch jwt rest (s.call jwt request routerNext).request).outcome⟩ := by
  simp [dispatch, hthrown, hcalls]

theorem dispatch_after_passAll (jwt : Jwt) (pre : List Stage) (rest : List Handler)
    (request reached : Request) (hpre : passAll jwt pre request = some reached) :
    (dispatch jwt (pre.map .stage ++ rest) request).ran =
        pre.map .stage ++ (dispatch jwt rest reached).ran ∧
    (dispatch jwt (pre.map .stage ++ rest) request).outcome =
        (dispatch jwt rest reached).outcome := by
  induction pre generalizing request with
  | nil =>
    simp [passAll] at hpre
    subst hpre
    simp
  | cons s pre ih =>
    simp only [passAll] at hpre
    split at hpre
    · rename_i hpass
      have hrec := ih _ hpre
      simp only [List.map_cons, List.cons_append]
      rw [dispatch_of_passed jwt s _ request hpass.1 hpass.2]
      simp [hrec.1, hrec.2]
    · simp at hpre

/-- C5: pipeline stages run in declared order and the first rejection short-circuits.
For every handler list (so for every route group) and every request: (a) if the stages
before stage s all pass and s throws v, then the handlers that ran are exactly those
stages followed by s, in declared order, nothing after s and no route module ran, and
the outcome is the rejection with v; (b) if all stages pass, they ran in declared order
and the route module is reached; (c) a request to /license without a token is rejected
with code -8, only validateToken ran and validateSupervisorLevel was not evaluated. -/
theorem pipeline_short_circuit (jwt : Jwt) :
    (∀ (pre : List Stage) (s : Stage) (post : List Handler) (request reached : Request)
        (v : Thrown),
      passAll jwt pre request = some reached →
      (s.call jwt reached routerNext).thrown = some v →
      (dispatch jwt (pre.map .stage ++ .stage s :: post) request).ran =
        pre.map .stage ++ [.stage s] ∧
      (dispatch jwt (pre.map .stage ++ .stage s :: post) request).outcome = .rejected v) ∧
    (∀ (stages : List Stage) (r : Routes) (post : List Handler) (request reached : Request),
      passAll jwt stages request = some reached →
      (dispatch jwt (stages.map .stage ++ .routes r :: post) request).ran =
        stages.map .stage ++ [.routes r] ∧
      (dispatch jwt (stages.map .stage ++ .routes r :: post) request).outcome =
        .handled r reached) ∧
    (∀ (request : Request), request.header "auth-token" = none →
      ∃ run, serve jwt "/license" request = some run ∧
        run.outcome = .rejected (.object
          ⟨-8, "Access denied. Token required for: " ++ request.originalUrl⟩) ∧
        run.outcome ≠ .rejected (.object supervisorRequired) ∧
        run.ran = [.stage .validateToken] ∧
        Handler.stage .validateSupervisorLevel ∉ run.ran) := by
  refine ⟨?_, ?_, ?_⟩
  · intro pre s post request reached v hpre hthrown
    have h := dispatch_after_passAll jwt pre (.stage s :: post) request reached hpre
    rw [h.1, h.2, dispatch_of_thrown jwt s post reached v hthrown]
    exact ⟨rfl, rfl⟩
  · intro stages r post request reached hpre
    have h := dispatch_after_passAll jwt stages (.routes r :: post) request reached hpre
    rw [h.1, h.2]
    simp [dispatch]
  · intro request habsent
    have hcall : (Stage.validateToken.call jwt request routerNext).thrown =
        some (.object (tokenRequired request.originalUrl)) := by
      show (validateToken jwt request routerNext).thrown = _
      rw [validateToken_of_absent jwt request routerNext habsent]
    refine ⟨dispatch jwt [.stage .validateToken, .stage .validateSupervisorLevel,
      .routes .license] request, rfl, ?_⟩
    rw [dispatch_of_thrown jwt .validateToken _ request _ hcall]
    refine ⟨rfl, ?_, rfl, ?_⟩
    · simp [supervisorRequired, tokenRequired]
    · simp

/-- Witness of C5: on /license a level 10 principal passes validateToken and is stopped
by validateSupervisorLevel, and the route module is not reached. -/
theorem pipeline_short_circuit_witness :
    passAll sampleJwt [.validateToken] (sampleRequest [("auth-token", "basic")] none) =
      some (sampleRequest [("auth-token", "basic")] (some ⟨8, 10, 1000, some 865000⟩)) ∧
    (dispatch sampleJwt
      ([Stage.validateToken].map .stage ++
        .stage .validateSupervisorLevel :: [.routes .license])
      (sampleRequest [("auth-token", "basic")] none)).outcome =
      .rejected (.object supervisorRequired) :=
  ⟨by decide,
    ((pipeline_short_circuit sampleJwt).1 [.validateToken] .validateSupervisorLevel
      [.routes .license] (sampleRequest [("auth-token", "basic")] none)
      (sampleRequest [("auth-token", "basic")] (some ⟨8, 10, 1000, some 865000⟩))
      (.object supervisorRequired) (by decide) (by decide)).2⟩

theorem dispatch_supervisor_gate (jwt : Jwt) (r : Routes) (request : Request) (token : String)
    (p : Payload) (hheader : request.header "auth-token" = some token) (hne : token ≠ "")
    (hvalid : jwt.validate token = .ok p) :
    (p.level ≤ 10 →
      (dispatch jwt [.stage .validateToken, .stage .validateSupervisorLevel, .routes r]
        request).outcome = .rejected (.object supervisorRequired) ∧
      (dispatch jwt [.stage .validateToken, .stage .validateSupervisorLevel, .routes r]
        request).ran = [.stage .validateToken, .stage .validateSupervisorLevel]) ∧
    (p.level > 10 →
      (dispatch jwt [.stage .validateToken, .stage .validateSupervisorLevel, .routes r]
        request).outcome = .handled r { request with user := some p } ∧
      (dispatch jwt [.stage .validateToken, .stage .validateSupervisorLevel, .routes r]
        request).ran =
        [.stage .validateToken, .stage .validateSupervisorLevel, .routes r]) := by
  have htoken : Stage.validateToken.call jwt request routerNext =
      { request := { request with user := some p }, nextCalls := [none],
        validateCalls := [token], console := [], thrown := none } :=
    validateToken_of_valid jwt request routerNext token p hheader hne hvalid rfl
  have hfirst := dispatch_of_passed jwt .validateToken
    [.stage .validateSupervisorLevel, .routes r] request (by rw [htoken]) (by rw [htoken])
  rw [htoken] at hfirst
  constructor
  · intro hle
    have hlevel : Stage.validateSupervisorLevel.call jwt { request with user := some p }
        routerNext = _ :=
      validateSupervisorLevel_of_le { request with user := some p } p routerNext rfl hle
    have hsecond := dispatch_of_thrown jwt .validateSupervisorLevel [.routes r]
      { request with user := some p } (.object supervisorRequired) (by rw [hlevel])
    rw [hfirst, hsecond]
    exact ⟨rfl, rfl⟩
  · intro hgt
    have hlevel : Stage.validateSupervisorLevel.call jwt { request with user := some p }
        routerNext = _ :=
      validateSupervisorLevel_of_gt { request with user := some p } p routerNext rfl hgt
    have hsecond := dispatch_of_passed jwt .validateSupervisorLevel [.routes r]
      { request with user := some p } (by rw [hlevel]) (by rw [hlevel]; rfl)
    rw [hlevel] at hsecond
    rw [hfirst, hsecond]
    simp [dispatch]

/-- C6: on the Supervisor-gated route groups /license and /results the mounted
pipeline is validateToken followed by validateSupervisorLevel, and for every request
bearing a valid token of level L: if L <= 10 the outcome is the rejection with code -6,
the two middlewares ran and the route module did not; if L > 10 the route module is
reached with the decoded principal attached to the request. -/
theorem supervisor_gated_routes (jwt : Jwt) (path : String) (request : Request)
    (token : String) (p : Payload)
    (hpath : path = "/license" ∨ path = "/results")
    (hheader : request.header "auth-token" = some token) (hne : token ≠ "")
    (hvalid : jwt.validate token = .ok p) :
    pipelineOf path = some [.validateToken, .validateSupervisorLevel] ∧
    ∃ run r, serve jwt path request = some run ∧
      (p.level ≤ 10 →
        run.outcome = .rejected (.object
          ⟨-6, "Insufficient user level (Supervisor required)."⟩) ∧
        run.ran = [.stage .validateToken, .stage .validateSupervisorLevel] ∧
        (∀ module, Handler.routes module ∉ run.ran)) ∧
      (p.level > 10 →
        run.outcome = .handled r { request with user := some p } ∧
        run.ran = [.stage .validateToken, .stage .validateSupervisorLevel, .routes r]) := by
  rcases hpath with hpath | hpath
  · subst hpath
    have h := dispatch_supervisor_gate jwt .license request token p hheader hne hvalid
    refine ⟨by decide, _, .license, rfl, ?_, ?_⟩
    · intro hle
      refine ⟨(h.1 hle).1, (h.1 hle).2, ?_⟩
      intro module
      rw [(h.1 hle).2]
      simp
    · intro hgt
      exact h.2 hgt
  · subst hpath
    have h := dispatch_supervisor_gate jwt .results request token p hheader hne hvalid
    refine ⟨by decide, _, .results, rfl, ?_, ?_⟩
    · intro hle
      refine ⟨(h.1 hle).1, (h.1 hle).2, ?_⟩
      intro module
      rw [(h.1 hle).2]
      simp
    · intro hgt
      exact h.2 hgt

/-- Witness of C6: on /results the level 10 token is rejected with code -6 and the
level 11 token reaches the results routes. -/
theorem supervisor_gated_routes_witness :
    (serve sampleJwt "/results" (sampleRequest [("auth-token", "basic")] none)).map
        (fun run => run.outcome) =
      some (.rejected (.object supervisorRequired)) ∧
    (serve sampleJwt "/results" (sampleRequest [("auth-token", "good")] none)).map
        (fun run => run.outcome) =
      some (.handled .results
        (sampleRequest [("auth-token", "good")] (some ⟨7, 11, 1000, some 865000⟩))) ∧
    pipelineOf "/results" = some [.validateToken, .validateSupervisorLevel] :=
  ⟨by decide, by decide,
    (supervisor_gated_routes sampleJwt "/results"
      (sampleRequest [("auth-token", "good")] none) "good" ⟨7, 11, 1000, some 865000⟩
      (Or.inr rfl) (by decide) (by decide) rfl).1⟩

/-- C7: the pipeline of each route group is a constant of the router, taking no request,
and the six groups are mounted in this order with exactly these pipelines:
/auth none, /user validateToken, /codes none, /license validateToken then
validateSupervisorLevel, /results validateToken then validateSupervisorLevel, /modules
validateToken; each group ends in its own route module, no other path is mounted, and
validateMasterLevel is mounted nowhere. -/
theorem restRouter_pipelines :
    pipelineOf "/auth" = some [] ∧
    pipelineOf "/user" = some [.validateToken] ∧
    pipelineOf "/codes" = some [] ∧
    pipelineOf "/license" = some [.validateToken, .validateSupervisorLevel] ∧
    pipelineOf "/results" = some [.validateToken, .validateSupervisorLevel] ∧
    pipelineOf "/modules" = some [.validateToken] ∧
    restRouter.map (fun u => u.path) =
      ["/auth", "/user", "/codes", "/license", "/results", "/modules"] ∧
    restRouter.map (fun u => u.handlers.getLast?) =
      [some (.routes .auth), some (.routes .user), some (.routes .codes),
        some (.routes .license), some (.routes .results), some (.routes .modules)] ∧
    (∀ path, path ∉ ["/auth", "/user", "/codes", "/license", "/results", "/modules"] →
      pipelineOf path = none) ∧
    (∀ u ∈ restRouter, Handler.stage .validateMasterLevel ∉ u.handlers) := by
  refine ⟨by decide, by decide, by decide, by decide, by decide, by decide, by decide,
    by decide, ?_, by decide⟩
  intro path hpath
  simp only [List.mem_cons, List.mem_singleton, not_or, List.not_mem_nil, or_false] at hpath
  obtain ⟨h1, h2, h3, h4, h5, h6⟩ := hpath
  have e1 : ("/auth" == path) = false := by simpa using Ne.symm h1
  have e2 : ("/user" == path) = false := by simpa using Ne.symm h2
  have e3 : ("/codes" == path) = false := by simpa using Ne.symm h3
  have e4 : ("/license" == path) = false := by simpa using Ne.symm h4
  have e5 : ("/results" == path) = false := by simpa using Ne.symm h5
  have e6 : ("/modules" == path) = false := by simpa using Ne.symm h6
  simp [pipelineOf, mounted, restRouter, List.find?, e1, e2, e3, e4, e5, e6]

/-- Witness of C7: nothing is mounted on /admin. -/
theorem restRouter_pipelines_witness : pipelineOf "/admin" = none :=
  restRouter_pipelines.2.2.2.2.2.2.2.2.1 "/admin" (by decide)

/-! ## Token round trip and expiry (helpers/jwt.js) -/

theorem issue_eq_sign (lib : Jws) (secret : String) (now : Nat) (claims : Claims)
    (expiresIn : Option Nat) :
    issue lib secret now claims expiresIn =
      lib.encode ⟨claims.id, claims.level, now, expiresIn.map (fun ttl => now + ttl)⟩
        secret := by
  cases expiresIn <;> rfl

/-- C11 as stated fails: the value validate returns for a token issued for the claims of
user 7 with level 3 is the payload with the four properties id, level, iat and exp, not
the claims object with its two properties. -/
theorem issue_validate_not_exact :
    issue sampleJws "s3cret" 1000 ⟨7, 3⟩ (some tenDays) = "header.payload.signature" ∧
    (sampleJws.jwt "s3cret" 2000).validate
        (issue sampleJws "s3cret" 1000 ⟨7, 3⟩ (some tenDays)) =
      .ok ⟨7, 3, 1000, some 865000⟩ ∧
    (⟨7, 3, 1000, some 865000⟩ : Payload).toObject ≠ (⟨7, 3⟩ : Claims).toObject ∧
    (⟨7, 3, 1000, some 865000⟩ : Payload).toObject =
      [("id", 7), ("level", 3), ("iat", 1000), ("exp", 865000)] :=
  ⟨rfl, rfl, by decide, by decide⟩

/-- C11 (amended): for every claims object, every ttl and every clock time before the
ttl has elapsed, validate of the token issued for the claims under the same secret
succeeds and returns the payload whose id and level are exactly those of the claims,
whose iat is the issue time and whose exp is the issue time plus the ttl (absent for a
null ttl). The signature of the issued token is taken to verify under its own
secret. -/
theorem issue_validate_roundtrip (lib : Jws) (secret : String) (issuedAt now : Nat)
    (claims : Claims) (ttl : Option Nat)
    (hcodec : lib.decode
        (lib.encode ⟨claims.id, claims.level, issuedAt, ttl.map (fun t => issuedAt + t)⟩
          secret) secret =
      some ⟨claims.id, claims.level, issuedAt, ttl.map (fun t => issuedAt + t)⟩)
    (hfresh : ∀ t, ttl = some t → now < issuedAt + t) :
    (lib.jwt secret now).validate (issue lib secret issuedAt claims ttl) =
      .ok ⟨claims.id, claims.level, issuedAt, ttl.map (fun t => issuedAt + t)⟩ ∧
    (⟨claims.id, claims.level, issuedAt, ttl.map (fun t => issuedAt + t)⟩ :
      Payload).claims = claims := by
  refine ⟨?_, rfl⟩
  rw [issue_eq_sign]
  simp only [Jwt.validate, Jws.jwt, Jws.verify, hcodec]
  cases ttl with
  | none => rfl
  | some t =>
    have h := hfresh t rfl
    have hnot : ¬ now ≥ issuedAt + t := by omega
    simp [hnot]

/-- Witness of C11 (amended): the ten-day token of user 7, validated at time 2000. -/
theorem issue_validate_roundtrip_witness :
    (sampleJws.jwt "s3cret" 2000).validate
        (issue sampleJws "s3cret" 1000 ⟨7, 3⟩ (some tenDays)) =
      .ok ⟨7, 3, 1000, some 865000⟩ :=
  (issue_validate_roundtrip sampleJws "s3cret" 1000 2000 ⟨7, 3⟩ (some tenDays) rfl
    (by intro t ht; cases ht; decide)).1

/-- C12: for every token issued with a non-null ttl, validate at any clock time later
than the issue time plus the ttl fails with the expiry error of the library; and
validateToken, given a request carrying that token, throws the object with code -9 and
does not call next. The signature of the issued token is taken to verify under its own
secret, and the token is a non-empty string. -/
theorem expired_token_rejected (lib : Jws) (secret : String) (issuedAt now : Nat)
    (claims : Claims) (ttl : Nat) (request : Request) (next : Next)
    (hcodec : lib.decode
        (lib.encode ⟨claims.id, claims.level, issuedAt, some (issuedAt + ttl)⟩ secret)
        secret = some ⟨claims.id, claims.level, issuedAt, some (issuedAt + ttl)⟩)
    (hlate : now > issuedAt + ttl)
    (hheader : request.header "auth-token" =
      some (issue lib secret issuedAt claims (some ttl)))
    (hne : issue lib secret issuedAt claims (some ttl) ≠ "") :
    (lib.jwt secret now).validate (issue lib secret issuedAt claims (some ttl)) =
      .error ⟨.TokenExpiredError, "jwt expired"⟩ ∧
    (validateToken (lib.jwt secret now) request next).thrown =
      some (.object ⟨-9, "Invalid or expired token"⟩) ∧
    (validateToken (lib.jwt secret now) request next).nextCalls = [] := by
  have hfail : (lib.jwt secret now).validate (issue lib secret issuedAt claims (some ttl)) =
      .error ⟨.TokenExpiredError, "jwt expired"⟩ := by
    have hge : now ≥ issuedAt + ttl := by omega
    simp [issue, Jws.sign, Jwt.validate, Jws.jwt, Jws.verify, hcodec, hge]
  refine ⟨hfail, ?_⟩
  rw [validateToken_of_invalid (lib.jwt secret now) request next _ _ hheader hne hfail]
  exact ⟨rfl, rfl⟩

/-- Witness of C12: the ten-day token of user 7, presented one second too late. -/
theorem expired_token_rejected_witness :
    (sampleJws.jwt "s3cret" 865001).validate
        (issue sampleJws "s3cret" 1000 ⟨7, 3⟩ (some tenDays)) =
      .error ⟨.TokenExpiredError, "jwt expired"⟩ :=
  (expired_token_rejected sampleJws "s3cret" 1000 865001 ⟨7, 3⟩ tenDays
    (sampleRequest [("auth-token", "header.payload.signature")] none) routerNext rfl
    (by decide) rfl (by decide)).1

/-! ## Code generation (routes/user.js) -/

theorem charAt_characters (k : Int) (h0 : 0 ≤ k) (h9 : k ≤ 9) :
    ∃ d : Char, charAt characters k = String.singleton d ∧
      d ∈ ['0', '1', '2', '3', '4', '5', '6', '7', '8', '9'] := by
  interval_cases k <;> exact ⟨_, rfl, by decide⟩

theorem roundHalfEven_le (y : ℚ) : (roundHalfEven y : ℚ) ≤ y + 1 / 2 := by
  have hfloor : (⌊y⌋ : ℚ) ≤ y := Int.floor_le y
  unfold roundHalfEven
  split
  · linarith
  · split
    · push_cast; linarith [Int.lt_floor_add_one y]
    · rename_i h1 h2
      have heq : y - ⌊y⌋ = 1 / 2 := le_antisymm (not_lt.mp h2) (not_lt.mp h1)
      split
      · linarith
      · push_cast; linarith

theorem roundHalfEven_nonneg (y : ℚ) (hy : 0 ≤ y) : 0 ≤ roundHalfEven y := by
  have hfloor : 0 ≤ ⌊y⌋ := Int.floor_nonneg.mpr hy
  unfold roundHalfEven
  split
  · exact hfloor
  · split
    · omega
    · split <;> omega

theorem roundHalfEven_intCast (n : ℤ) : roundHalfEven (n : ℚ) = n := by
  unfold roundHalfEven
  simp

theorem ulpExponent_le (x : ℚ) (hpos : 0 < x) (hlt : x < 16) : ulpExponent x ≤ -49 := by
  have hlog : Int.log 2 x < 4 := by
    apply (Int.lt_zpow_iff_log_lt (by norm_num) hpos).mp
    norm_num
    exact hlt
  unfold ulpExponent
  omega

theorem log_two_eq (x : ℚ) (k : ℤ) (hlow : (2 : ℚ) ^ k ≤ x) (hhigh : x < (2 : ℚ) ^ (k + 1)) :
    Int.log 2 x = k := by
  have hpos : 0 < x := lt_of_lt_of_le (by positivity) hlow
  apply le_antisymm
  · have : Int.log 2 x < k + 1 := by
      apply (Int.lt_zpow_iff_log_lt (by norm_num) hpos).mp
      exact_mod_cast hhigh
    omega
  · apply (Int.zpow_le_iff_le_log (by norm_num) hpos).mp
    exact_mod_cast hlow

/-- The product of a draw and 10, rounded to a double, stays below 10: the largest double
below 1 is `1 - 2 ^ (-53)`, ten times it lies more than half a spacing below 10. -/
theorem roundDouble_bounds (x : ℚ) (h0 : 0 ≤ x) (hle : x ≤ 10 - 10 / 2 ^ 53) :
    0 ≤ roundDouble x ∧ roundDouble x < 10 := by
  unfold roundDouble
  by_cases hx : x = 0
  · simp [hx]
  · have hpos : 0 < x := lt_of_le_of_ne h0 (Ne.symm hx)
    rw [if_neg hx, if_neg (not_lt.mpr h0)]
    unfold roundMagnitude
    have hq := ulpExponent_le x hpos (by linarith [show (10 : ℚ) / 2 ^ 53 > 0 by positivity])
    have hpow : (0 : ℚ) < (2 : ℚ) ^ ulpExponent x := by positivity
    have hy : 0 ≤ x / (2 : ℚ) ^ ulpExponent x := by positivity
    constructor
    · have hn := roundHalfEven_nonneg _ hy
      have : (0 : ℚ) ≤ (roundHalfEven (x / (2 : ℚ) ^ ulpExponent x) : ℚ) := by
        exact_mod_cast hn
      positivity
    · have hround := roundHalfEven_le (x / (2 : ℚ) ^ ulpExponent x)
      have hmul : (roundHalfEven (x / (2 : ℚ) ^ ulpExponent x) : ℚ) * (2 : ℚ) ^ ulpExponent x ≤
          x + (2 : ℚ) ^ ulpExponent x / 2 := by
        have := mul_le_mul_of_nonneg_right hround hpow.le
        calc _ ≤ (x / (2 : ℚ) ^ ulpExponent x + 1 / 2) * (2 : ℚ) ^ ulpExponent x := this
          _ = x + (2 : ℚ) ^ ulpExponent x / 2 := by field_simp; ring
      have hsmall : (2 : ℚ) ^ ulpExponent x ≤ (2 : ℚ) ^ (-49 : ℤ) :=
        zpow_le_zpow_right₀ (by norm_num) hq
      have hval : (2 : ℚ) ^ (-49 : ℤ) = 1 / 2 ^ 49 := by norm_num [zpow_neg]
      rw [hval] at hsmall
      have h1 : (10 : ℚ) / 2 ^ 53 > 1 / 2 ^ 49 / 2 := by norm_num
      linarith

theorem isDraw_bounds (r : ℚ) (h : IsDraw r) : 0 ≤ r ∧ r ≤ 1 - 1 / 2 ^ 53 := by
  obtain ⟨m, e, hr, hm, -, hme⟩ := h
  subst hr
  constructor
  · positivity
  · have hA : (0 : ℚ) < (2 : ℚ) ^ e := by positivity
    rw [div_le_iff₀ hA]
    have hmq : (m : ℚ) + 1 ≤ 2 ^ 53 := by exact_mod_cast hm
    have hmeq : (m : ℚ) + 1 ≤ (2 : ℚ) ^ e := by exact_mod_cast hme
    by_cases hcase : e ≤ 53
    · have hAB : (2 : ℚ) ^ e ≤ 2 ^ 53 := pow_le_pow_right₀ (by norm_num) hcase
      nlinarith
    · have hAB : (2 : ℚ) ^ 53 ≤ (2 : ℚ) ^ e := pow_le_pow_right₀ (by norm_num) (by omega)
      nlinarith

theorem isDraw_zero : IsDraw 0 :=
  ⟨0, 0, by norm_num, by norm_num, by norm_num, by norm_num⟩

theorem isDraw_half : IsDraw (1 / 2) :=
  ⟨1, 1, by norm_num, by norm_num, by norm_num, by norm_num⟩

theorem roundDouble_five : roundDouble 5 = 5 := by
  have hq : ulpExponent 5 = -50 := by
    unfold ulpExponent
    rw [log_two_eq 5 2 (by norm_num) (by norm_num)]
    rfl
  unfold roundDouble roundMagnitude
  rw [if_neg (by norm_num), if_neg (by norm_num), hq]
  have hy : (5 : ℚ) / (2 : ℚ) ^ (-50 : ℤ) = ((5 * 2 ^ 50 : ℤ) : ℚ) := by
    norm_num [zpow_neg]
  rw [hy, roundHalfEven_intCast]
  norm_num [zpow_neg]

theorem floor_draw (r : ℚ) (hdraw : IsDraw r) :
    0 ≤ ⌊roundDouble (r * (characters.length : ℚ))⌋ ∧
      ⌊roundDouble (r * (characters.length : ℚ))⌋ ≤ 9 := by
  have hlen : (characters.length : ℚ) = 10 := by
    have : characters.length = 10 := by decide
    rw [this]; norm_num
  rw [hlen]
  obtain ⟨h0, h1⟩ := isDraw_bounds r hdraw
  obtain ⟨hlow, hhigh⟩ := roundDouble_bounds (r * 10) (by positivity) (by linarith)
  constructor
  · exact Int.floor_nonneg.mpr hlow
  · have : ⌊roundDouble (r * 10)⌋ < 10 := by
      apply Int.floor_lt.mpr
      push_cast
      exact hhigh
    omega

theorem generateCode_digits (random : Nat → ℚ) (hrange : ∀ i, IsDraw (random i)) :
    (generateCode random).length = 6 ∧
    ∀ c ∈ (generateCode random).data,
      c ∈ ['0', '1', '2', '3', '4', '5', '6', '7', '8', '9'] := by
  have step : ∀ i, ∃ d : Char,
      charAt characters ⌊roundDouble (random i * (characters.length : ℚ))⌋ =
        String.singleton d ∧
      d ∈ ['0', '1', '2', '3', '4', '5', '6', '7', '8', '9'] := fun i =>
    charAt_characters _ (floor_draw (random i) (hrange i)).1
      (floor_draw (random i) (hrange i)).2
  obtain ⟨d0, e0, m0⟩ := step 0
  obtain ⟨d1, e1, m1⟩ := step 1
  obtain ⟨d2, e2, m2⟩ := step 2
  obtain ⟨d3, e3, m3⟩ := step 3
  obtain ⟨d4, e4, m4⟩ := step 4
  obtain ⟨d5, e5, m5⟩ := step 5
  have hcode : generateCode random = String.mk [d0, d1, d2, d3, d4, d5] := by
    have hr : List.range 6 = [0, 1, 2, 3, 4, 5] := by decide
    unfold generateCode
    rw [hr]
    simp only [List.foldl, e0, e1, e2, e3, e4, e5]
    rfl
  rw [hcode]
  refine ⟨rfl, ?_⟩
  intro c hc
  simp only [List.mem_cons, List.mem_singleton, List.not_mem_nil, or_false] at hc
  rcases hc with h | h | h | h | h | h <;> subst h <;> assumption

theorem generateCode_zero : generateCode (fun _ => 0) = "000000" := by
  have hr : List.range 6 = [0, 1, 2, 3, 4, 5] := by decide
  have hfloor : ⌊roundDouble ((0 : ℚ) * (characters.length : ℚ))⌋ = 0 := by
    simp [roundDouble]
  unfold generateCode
  rw [hr]
  simp only [List.foldl, hfloor]
  rfl

theorem isDraw_sevenTenths : IsDraw sevenTenths :=
  ⟨3152519739159347, 52, by norm_num [sevenTenths], by norm_num, by norm_num, by norm_num⟩

/-- The draw `0.7`: the exact product with 10 is below 7 and its floor is 6, but the double
product is a tie that rounds to 7, so `Math.floor(0.7 * 10)` is 7. -/
theorem roundDouble_sevenTenths :
    roundDouble (sevenTenths * 10) = 7 ∧ ⌊sevenTenths * 10⌋ = 6 := by
  have hx : sevenTenths * 10 = 31525197391593470 / 4503599627370496 := by
    norm_num [sevenTenths]
  have hq : ulpExponent (31525197391593470 / 4503599627370496) = -50 := by
    unfold ulpExponent
    rw [log_two_eq _ 2 (by norm_num) (by norm_num)]
    rfl
  have hy : (31525197391593470 / 4503599627370496 : ℚ) / (2 : ℚ) ^ (-50 : ℤ) =
      15762598695796735 / 2 := by
    norm_num [zpow_neg]
  have hfloor : ⌊(15762598695796735 / 2 : ℚ)⌋ = 7881299347898367 := by
    rw [Int.floor_eq_iff]
    constructor <;> norm_num
  have hround : roundHalfEven (15762598695796735 / 2) = 7881299347898368 := by
    unfold roundHalfEven
    rw [hfloor]
    norm_num
  constructor
  · rw [hx]
    unfold roundDouble roundMagnitude
    rw [if_neg (by norm_num), if_neg (by norm_num), hq, hy, hround]
    norm_num [zpow_neg]
  · rw [hx, Int.floor_eq_iff]
    constructor <;> norm_num

theorem generateCode_sevenTenths : generateCode (fun _ => sevenTenths) = "777777" := by
  have hr : List.range 6 = [0, 1, 2, 3, 4, 5] := by decide
  have hlen : (characters.length : ℚ) = 10 := by
    have : characters.length = 10 := by decide
    rw [this]; norm_num
  have hfloor : ⌊roundDouble (sevenTenths * (characters.length : ℚ))⌋ = 7 := by
    rw [hlen, roundDouble_sevenTenths.1]
    norm_num
  unfold generateCode
  rw [hr]
  simp only [List.foldl, hfloor]
  rfl

/-! ## issueOrReuse (GET /user/code/:scene) -/

theorem issueOrReuse_of_found (store : Store) (now : Nat) (random : Nat → ℚ)
    (userid scene : Int) (res : CodeRow)
    (hfound : findUnused store.codes userid scene = some res) :
    issueOrReuse store now random userid scene = ⟨store, .json res.code⟩ := by
  simp [issueOrReuse, hfound]

theorem issueOrReuse_of_fresh (store : Store) (now : Nat) (random : Nat → ℚ)
    (userid scene : Int) (hnone : findUnused store.codes userid scene = none)
    (hfresh : ∀ c ∈ store.codes, c.code ≠ generateCode random) :
    issueOrReuse store now random userid scene =
      ⟨{ store with codes := store.codes ++ [⟨generateCode random, some 0, now, userid, scene⟩] },
        .json (generateCode random)⟩ := by
  have hany : store.codes.any (fun c => c.code == generateCode random) = false := by
    rw [List.any_eq_false]
    intro c hc
    simpa using hfresh c hc
  simp [issueOrReuse, hnone, insertCode, hany]

theorem issueOrReuse_of_collision (store : Store) (now : Nat) (random : Nat → ℚ)
    (userid scene : Int) (hnone : findUnused store.codes userid scene = none)
    (hclash : ∃ c ∈ store.codes, c.code = generateCode random) :
    issueOrReuse store now random userid scene =
      ⟨store, .onError ⟨.text "SQLITE_CONSTRAINT",
        "SQLITE_CONSTRAINT: UNIQUE constraint failed: Codes.code"⟩⟩ := by
  have hany : store.codes.any (fun c => c.code == generateCode random) = true := by
    rw [List.any_eq_true]
    obtain ⟨c, hc, hcode⟩ := hclash
    exact ⟨c, hc, by simpa using hcode⟩
  simp [issueOrReuse, hnone, insertCode, hany, report, constraintViolation]

theorem findUnused_append_new (codes : List CodeRow) (code : String) (now : Nat)
    (userid scene : Int) (hnone : findUnused codes userid scene = none) :
    findUnused (codes ++ [⟨code, some 0, now, userid, scene⟩]) userid scene =
      some ⟨code, some 0, now, userid, scene⟩ := by
  unfold findUnused at hnone ⊢
  rw [List.find?_append, hnone]
  simp [List.find?]

/-- C13: issueOrReuse is idempotent until close. For every store, user and scene, if
the handler answers with a code, then a second call for the same user and scene on the
store the first call left, at any later time and with any random draws, answers with
the same code and leaves the store, hence the Codes table, unchanged. -/
theorem issueOrReuse_idempotent (store : Store) (now1 now2 : Nat) (random1 random2 : Nat → ℚ)
    (userid scene : Int) (code : String)
    (hfirst : (issueOrReuse store now1 random1 userid scene).reply = .json code) :
    (issueOrReuse (issueOrReuse store now1 random1 userid scene).store now2 random2
      userid scene).reply = .json code ∧
    (issueOrReuse (issueOrReuse store now1 random1 userid scene).store now2 random2
      userid scene).store = (issueOrReuse store now1 random1 userid scene).store ∧
    (issueOrReuse (issueOrReuse store now1 random1 userid scene).store now2 random2
      userid scene).store.codes = (issueOrReuse store now1 random1 userid scene).store.codes := by
  cases hfind : findUnused store.codes userid scene with
  | some res =>
    rw [issueOrReuse_of_found store now1 random1 userid scene res hfind] at hfirst ⊢
    simp only at hfirst ⊢
    rw [issueOrReuse_of_found store now2 random2 userid scene res hfind]
    exact ⟨hfirst, rfl, rfl⟩
  | none =>
    by_cases hclash : ∃ c ∈ store.codes, c.code = generateCode random1
    · rw [issueOrReuse_of_collision store now1 random1 userid scene hfind hclash] at hfirst
      simp at hfirst
    · have hfresh : ∀ c ∈ store.codes, c.code ≠ generateCode random1 := by
        intro c hc hcode
        exact hclash ⟨c, hc, hcode⟩
      rw [issueOrReuse_of_fresh store now1 random1 userid scene hfind hfresh] at hfirst ⊢
      simp only at hfirst ⊢
      have hsecond := findUnused_append_new store.codes (generateCode random1) now1 userid
        scene hfind
      rw [issueOrReuse_of_found _ now2 random2 userid scene _ hsecond]
      exact ⟨hfirst, rfl, rfl⟩

/-- Witness of C13: user 7 asks twice for a code for scene 3. -/
theorem issueOrReuse_idempotent_witness :
    (issueOrReuse emptyCodesStore 50 (fun _ => 0) 7 3).reply = .json "000000" ∧
    (issueOrReuse (issueOrReuse emptyCodesStore 50 (fun _ => 0) 7 3).store 60
      (fun _ => 1 / 2) 7 3).reply = .json "000000" := by
  have hfirst : (issueOrReuse emptyCodesStore 50 (fun _ => 0) 7 3).reply = .json "000000" := by
    rw [issueOrReuse_of_fresh emptyCodesStore 50 (fun _ => 0) 7 3 rfl
      (by intro c hc; simp [emptyCodesStore] at hc), generateCode_zero]
  exact ⟨hfirst,
    (issueOrReuse_idempotent emptyCodesStore 50 60 (fun _ => 0) (fun _ => 1 / 2) 7 3
      "000000" hfirst).1⟩

/-- C15 as stated fails: the store holds no unused code for user 7 and scene 3, the six
draws are all 0, and the generated code 000000 is already a row of Codes (of another
user), so the insert is refused by the primary key: the handler answers with the driver
error and inserts nothing. -/
theorem issueOrReuse_collision_not_inserted :
    findUnused collisionStore.codes 7 3 = none ∧
    generateCode (fun _ => 0) = "000000" ∧
    (issueOrReuse collisionStore 50 (fun _ => 0) 7 3).reply =
      .onError ⟨.text "SQLITE_CONSTRAINT",
        "SQLITE_CONSTRAINT: UNIQUE constraint failed: Codes.code"⟩ ∧
    (issueOrReuse collisionStore 50 (fun _ => 0) 7 3).store = collisionStore := by
  have h := issueOrReuse_of_collision collisionStore 50 (fun _ => 0) 7 3 rfl
    ⟨⟨"000000", some 0, 10, 99, 1⟩, by simp [collisionStore], generateCode_zero.symm⟩
  rw [h]
  exact ⟨rfl, generateCode_zero, rfl, rfl⟩

/-- C15 (amended): for every store holding no unused code for the user and scene and
every sequence of draws that are doubles in [0, 1), the code generated from the six
double products is a string of exactly 6 characters, each one of the digits 0 to 9; and
when no row of Codes already has that code, the handler appends the row with this code,
used = 0, the user and the scene to Codes, changes nothing else, and answers with the
same string as vrcode. -/
theorem issueOrReuse_generates (store : Store) (now : Nat) (random : Nat → ℚ)
    (userid scene : Int)
    (hnone : ∀ c ∈ store.codes, ¬ (c.userid = userid ∧ c.scene = scene ∧ c.used = some 0))
    (hrange : ∀ i, IsDraw (random i)) :
    (generateCode random).length = 6 ∧
    (∀ c ∈ (generateCode random).data,
      c ∈ ['0', '1', '2', '3', '4', '5', '6', '7', '8', '9']) ∧
    ((∀ c ∈ store.codes, c.code ≠ generateCode random) →
      (issueOrReuse store now random userid scene).store =
        { store with codes :=
            store.codes ++ [⟨generateCode random, some 0, now, userid, scene⟩] } ∧
      (issueOrReuse store now random userid scene).reply = .json (generateCode random)) := by
  have hfind : findUnused store.codes userid scene = none := by
    unfold findUnused
    rw [List.find?_eq_none]
    intro c hc
    have := hnone c hc
    simpa using this
  refine ⟨(generateCode_digits random hrange).1, (generateCode_digits random hrange).2, ?_⟩
  intro hfresh
  rw [issueOrReuse_of_fresh store now random userid scene hfind hfresh]
  exact ⟨rfl, rfl⟩

/-- Witness of C15 (amended): user 7 gets the code 777777 for scene 3 from six draws of
the double 0.7, each of whose products with 10 rounds up to 7. -/
theorem issueOrReuse_generates_witness :
    generateCode (fun _ => sevenTenths) = "777777" ∧
    (issueOrReuse emptyCodesStore 50 (fun _ => sevenTenths) 7 3).store.codes =
      [⟨generateCode (fun _ => sevenTenths), some 0, 50, 7, 3⟩] ∧
    (issueOrReuse emptyCodesStore 50 (fun _ => sevenTenths) 7 3).reply =
      .json (generateCode (fun _ => sevenTenths)) :=
  ⟨generateCode_sevenTenths,
    congrArg Store.codes
      ((issueOrReuse_generates emptyCodesStore 50 (fun _ => sevenTenths) 7 3
        (by intro c hc; simp [emptyCodesStore] at hc)
        (fun _ => isDraw_sevenTenths)).2.2
        (by intro c hc; simp [emptyCodesStore] at hc)).1,
    ((issueOrReuse_generates emptyCodesStore 50 (fun _ => sevenTenths) 7 3
      (by intro c hc; simp [emptyCodesStore] at hc)
      (fun _ => isDraw_sevenTenths)).2.2
      (by intro c hc; simp [emptyCodesStore] at hc)).2⟩

/-! ## close (POST /codes/close/:code) -/

theorem countOK_eq_filter (entries : List Entry) :
    countOK entries = (entries.filter (fun e => e.result)).length := by
  have hgen : ∀ (n : Nat), entries.foldl (fun ok entry => if entry.result then ok + 1 else ok) n =
      n + (entries.filter (fun e => e.result)).length := by
    induction entries with
    | nil => intro n; simp
    | cons e rest ih =>
      intro n
      cases he : e.result
      · simp [List.foldl, he, ih]
      · simp [List.foldl, he, ih]; omega
  simpa [countOK] using hgen 0

theorem insertResults_ok (rows results inserted : List ResultRow)
    (hok : insertResults results rows = .ok inserted) : inserted = results ++ rows := by
  induction rows generalizing results with
  | nil =>
    simp [insertResults] at hok
    simp [hok]
  | cons row rest ih =>
    simp only [insertResults] at hok
    split at hok
    · simp at hok
    · have := ih _ hok
      simp [this]

theorem deletePriorResults_of_absent (store : Store) (code : String)
    (habsent : ∀ c ∈ store.codes, c.code ≠ code) :
    deletePriorResults store code = store.results := by
  unfold deletePriorResults
  rw [List.filter_eq_self]
  intro r _
  have hany : store.codes.any (fun c =>
      c.code == code && r.userid == c.userid && r.platform == 2 && r.scene == c.scene) =
      false := by
    rw [List.any_eq_false]
    intro c hc
    have := habsent c hc
    simp [this]
  simp [hany]

theorem closeRows_of_absent (stringify : CloseBody → String) (store : Store) (now : Nat)
    (code : String) (body : CloseBody) (habsent : ∀ c ∈ store.codes, c.code ≠ code) :
    closeRows stringify store now code body = [] := by
  unfold closeRows
  rw [List.map_eq_nil_iff, List.filter_eq_nil_iff]
  intro c hc
  simpa using habsent c hc

theorem close_of_absent (stringify : CloseBody → String) (store : Store) (now : Nat)
    (code : String) (body : CloseBody) (habsent : ∀ c ∈ store.codes, c.code ≠ code) :
    close stringify store now code body =
      ⟨store, .onError ⟨.number (-3202), "Cant find the code " ++ code⟩⟩ := by
  unfold close
  simp only [closeRows_of_absent stringify store now code body habsent,
    deletePriorResults_of_absent store code habsent, insertResults]
  simp [report]

/-- The shape of a successful close: exactly one row of Codes has the code, the new
result row follows the results that survive the delete, Users is untouched, and Codes
loses exactly the rows with the code unless the code is the reserved one. -/
theorem close_of_success (stringify : CloseBody → String) (store : Store) (now : Nat)
    (code : String) (body : CloseBody) (message : String)
    (hsuccess : (close stringify store now code body).reply = .json message) :
    ∃ c, store.codes.filter (fun c => c.code == code) = [c] ∧
      (close stringify store now code body).store.results =
        deletePriorResults store code ++
          [⟨c.userid, 2, c.scene, now, stringify body, body.signals.length,
            countOK body.signals, body.distances.length, countOK body.distances⟩] ∧
      (close stringify store now code body).store.users = store.users ∧
      (close stringify store now code body).store.codes =
        (if code ≠ sentinel then store.codes.filter (fun c => c.code != code)
         else store.codes) ∧
      message = "Code " ++ code ++ " closed." := by
  unfold close at hsuccess ⊢
  simp only at hsuccess ⊢
  cases hins : insertResults (deletePriorResults store code)
      (closeRows stringify store now code body) with
  | error e =>
    rw [hins] at hsuccess
    simp at hsuccess
  | ok results2 =>
    rw [hins] at hsuccess
    simp only at hsuccess ⊢
    have hres := insertResults_ok _ _ _ hins
    by_cases hlen : (closeRows stringify store now code body).length ≠ 1
    · rw [if_pos hlen] at hsuccess
      simp at hsuccess
    · rw [if_neg hlen] at hsuccess
      rw [if_neg hlen]
      have hlen1 : (closeRows stringify store now code body).length = 1 := by omega
      have hfilter : (store.codes.filter (fun c => c.code == code)).length = 1 := by
        simpa [closeRows] using hlen1
      obtain ⟨c, hc⟩ := List.length_eq_one.mp hfilter
      have hrows : closeRows stringify store now code body =
          [⟨c.userid, 2, c.scene, now, stringify body, body.signals.length,
            countOK body.signals, body.distances.length, countOK body.distances⟩] := by
        simp [closeRows, hc]
      refine ⟨c, hc, ?_⟩
      by_cases hsent : code ≠ sentinel
      · rw [if_pos hsent] at hsuccess
        rw [if_pos hsent]
        by_cases hdel : store.codes.length -
            (store.codes.filter (fun c => c.code != code)).length ≠ 1
        · rw [if_pos hdel] at hsuccess
          simp at hsuccess
        · rw [if_neg hdel] at hsuccess
          rw [if_neg hdel]
          simp only [Reply.json.injEq] at hsuccess
          refine ⟨?_, rfl, ?_, hsuccess.symm⟩
          · simp [hres, hrows]
          · simp [hsent]
      · rw [if_neg hsent] at hsuccess
        rw [if_neg hsent]
        simp only [Reply.json.injEq] at hsuccess
        refine ⟨?_, rfl, ?_, hsuccess.symm⟩
        · simp [hres, hrows]
        · simp [hsent]

theorem mem_codes_of_filter_eq (store : Store) (code : String) (c : CodeRow)
    (hfilter : store.codes.filter (fun c => c.code == code) = [c]) :
    c ∈ store.codes ∧ c.code = code := by
  have hmem : c ∈ store.codes.filter (fun c => c.code == code) := by
    rw [hfilter]; exact List.mem_singleton.mpr rfl
  rw [List.mem_filter] at hmem
  exact ⟨hmem.1, by simpa using hmem.2⟩

/-- C16: a successful close stores, for a row of Codes with the closed code, a Results
row for the user and scene of that row with platform 2, signals = the length of the
signals list, signalsOK = the number of signals entries whose result flag is true,
distances = the length of the distances list, distancesOK = the number of distances
entries whose result flag is true, and data = the JSON serialisation of the request
body; for signals true, false and distances true the counts are 2, 1, 1 and 1. -/
theorem close_stores_result (stringify : CloseBody → String) (store : Store) (now : Nat)
    (code : String) (body : CloseBody) (message : String)
    (hsuccess : (close stringify store now code body).reply = .json message) :
    ∃ c ∈ store.codes, c.code = code ∧
      (⟨c.userid, 2, c.scene, now, stringify body, body.signals.length,
          (body.signals.filter (fun e => e.result)).length, body.distances.length,
          (body.distances.filter (fun e => e.result)).length⟩ : ResultRow) ∈
        (close stringify store now code body).store.results ∧
      (body = ⟨[⟨true⟩, ⟨false⟩], [⟨true⟩]⟩ →
        (⟨c.userid, 2, c.scene, now, stringify body, 2, 1, 1, 1⟩ : ResultRow) ∈
          (close stringify store now code body).store.results) := by
  obtain ⟨c, hfilter, hresults, -, -, -⟩ :=
    close_of_success stringify store now code body message hsuccess
  have hc := mem_codes_of_filter_eq store code c hfilter
  refine ⟨c, hc.1, hc.2, ?_, ?_⟩
  · rw [hresults, ← countOK_eq_filter, ← countOK_eq_filter]
    simp
  · intro hbody
    rw [hresults]
    subst hbody
    simp [countOK]

/-- Witness of C16: the scenario of the specification, closing the code 123456 of user 7
and scene 3. -/
theorem close_stores_result_witness :
    (close sampleStringify scenarioStore 60 "123456" scenarioBody).reply =
      .json "Code 123456 closed." ∧
    ∃ c ∈ scenarioStore.codes, c.code = "123456" ∧
      (⟨c.userid, 2, c.scene, 60, sampleStringify scenarioBody, 2, 1, 1, 1⟩ : ResultRow) ∈
        (close sampleStringify scenarioStore 60 "123456" scenarioBody).store.results := by
  have hsuccess : (close sampleStringify scenarioStore 60 "123456" scenarioBody).reply =
      .json "Code 123456 closed." := by decide
  obtain ⟨c, hc, hcode, -, hrow⟩ :=
    close_stores_result sampleStringify scenarioStore 60 "123456" scenarioBody _ hsuccess
  exact ⟨hsuccess, c, hc, hcode, hrow rfl⟩

/-- C17: for every store and every code that has no row in Codes, close with any report
lists answers with the code-not-found error, code -3202, and leaves the whole store, in
particular the Codes table and the Results table, unchanged. -/
theorem close_unknown_code (stringify : CloseBody → String) (store : Store) (now : Nat)
    (code : String) (body : CloseBody) (habsent : ∀ c ∈ store.codes, c.code ≠ code) :
    (close stringify store now code body).reply =
      .onError ⟨.number (-3202), "Cant find the code " ++ code⟩ ∧
    (close stringify store now code body).store.codes = store.codes ∧
    (close stringify store now code body).store.results = store.results ∧
    (close stringify store now code body).store = store := by
  rw [close_of_absent stringify store now code body habsent]
  exact ⟨rfl, rfl, rfl, rfl⟩

/-- Witness of C17: the code 999999 was never issued in the scenario store. -/
theorem close_unknown_code_witness :
    (close sampleStringify scenarioStore 60 "999999" scenarioBody).reply =
      .onError ⟨.number (-3202), "Cant find the code 999999"⟩ :=
  (close_unknown_code sampleStringify scenarioStore 60 "999999" scenarioBody
    (by decide)).1

theorem codes_after_close_of_success (stringify : CloseBody → String) (store : Store)
    (now : Nat) (code : String) (body : CloseBody) (message : String)
    (hne : code ≠ sentinel)
    (hsuccess : (close stringify store now code body).reply = .json message) :
    ∀ c ∈ (close stringify store now code body).store.codes, c.code ≠ code := by
  obtain ⟨-, -, -, -, hcodes, -⟩ :=
    close_of_success stringify store now code body message hsuccess
  rw [hcodes, if_pos hne]
  intro c hc
  rw [List.mem_filter] at hc
  simpa using hc.2

/-- C18 as stated fails for the reserved code: it is not deleted, so two close calls on
778199 in a row both succeed. -/
theorem close_sentinel_twice_succeeds :
    (close sampleStringify sentinelStore 60 "778199" scenarioBody).reply =
      .json "Code 778199 closed." ∧
    (close sampleStringify
      (close sampleStringify sentinelStore 60 "778199" scenarioBody).store 70 "778199"
      scenarioBody).reply = .json "Code 778199 closed." := by
  decide

/-- C18 (amended): for every store and every code other than the reserved code 778199,
after one successful close of that code a second close of the same code, with any
report lists and no call in between, answers with the code-not-found error, code
-3202; so the two calls do not both succeed. -/
theorem close_twice_fails (stringify : CloseBody → String) (store : Store) (now1 now2 : Nat)
    (code : String) (body1 body2 : CloseBody) (message : String)
    (hne : code ≠ "778199")
    (hsuccess : (close stringify store now1 code body1).reply = .json message) :
    (close stringify (close stringify store now1 code body1).store now2 code body2).reply =
      .onError ⟨.number (-3202), "Cant find the code " ++ code⟩ ∧
    ∀ other, (close stringify (close stringify store now1 code body1).store now2 code
      body2).reply ≠ .json other := by
  have habsent := codes_after_close_of_success stringify store now1 code body1 message hne
    hsuccess
  rw [close_of_absent stringify _ now2 code body2 habsent]
  refine ⟨rfl, ?_⟩
  intro other h
  simp at h

/-- Witness of C18 (amended): the code 123456 of the scenario, closed twice. -/
theorem close_twice_fails_witness :
    (close sampleStringify scenarioStore 60 "123456" scenarioBody).reply =
      .json "Code 123456 closed." ∧
    (close sampleStringify
      (close sampleStringify scenarioStore 60 "123456" scenarioBody).store 70 "123456"
      scenarioBody).reply = .onError ⟨.number (-3202), "Cant find the code 123456"⟩ :=
  ⟨by decide,
    (close_twice_fails sampleStringify scenarioStore 60 70 "123456" scenarioBody
      scenarioBody "Code 123456 closed." (by decide) (by decide)).1⟩

/-! ## resolve (GET /codes/validate/:code) -/

theorem resolve_of_absent (store : Store) (code : String)
    (habsent : ∀ c ∈ store.codes, c.code ≠ code) :
    resolve store code =
      ⟨store, .onError ⟨.number (-3001), "Cant find the code " ++ code⟩⟩ := by
  have hfilter : store.codes.filter (fun c => c.code == code) = [] := by
    rw [List.filter_eq_nil_iff]
    intro c hc
    simpa using habsent c hc
  simp [resolve, findCodeOwner, hfilter, report]

theorem resolve_of_owner (store : Store) (code : String) (c : CodeRow)
    (hfilter : store.codes.filter (fun c => c.code == code) = [c])
    (howner : ∃ u ∈ store.users, u.id = c.userid) :
    ∃ r, (resolve store code).reply = .json r ∧ r.scene = c.scene ∧
      r.created = c.created := by
  cases husers : store.users.filter (fun u => c.userid == u.id) with
  | nil =>
    rw [List.filter_eq_nil_iff] at husers
    obtain ⟨u, hu, hid⟩ := howner
    have := husers u hu
    simp [hid] at this
  | cons u rest =>
    simp [resolve, findCodeOwner, hfilter, husers]

theorem resolve_of_orphan (store : Store) (code : String) (c : CodeRow)
    (hfilter : store.codes.filter (fun c => c.code == code) = [c])
    (horphan : ∀ u ∈ store.users, u.id ≠ c.userid) :
    (resolve store code).reply =
      .onError ⟨.number (-3001), "Cant find the code " ++ code⟩ := by
  have husers : store.users.filter (fun u => c.userid == u.id) = [] := by
    rw [List.filter_eq_nil_iff]
    intro u hu
    have := horphan u hu
    simpa using fun h => this h.symm
  simp [resolve, findCodeOwner, hfilter, husers, report]

/-- C19: for every store, every code other than the reserved code 778199 and every pair
of report lists, after a successful close of the code (which requires the code to be
in Codes) the Codes table has no row for it and resolve answers with the code-not-found
error, code -3001. -/
theorem close_then_resolve_fails (stringify : CloseBody → String) (store : Store) (now : Nat)
    (code : String) (body : CloseBody) (message : String)
    (hne : code ≠ "778199")
    (hsuccess : (close stringify store now code body).reply = .json message) :
    (∃ c ∈ store.codes, c.code = code) ∧
    (∀ c ∈ (close stringify store now code body).store.codes, c.code ≠ code) ∧
    (resolve (close stringify store now code body).store code).reply =
      .onError ⟨.number (-3001), "Cant find the code " ++ code⟩ := by
  have habsent := codes_after_close_of_success stringify store now code body message hne
    hsuccess
  obtain ⟨c, hfilter, -⟩ := close_of_success stringify store now code body message hsuccess
  refine ⟨⟨c, mem_codes_of_filter_eq store code c hfilter⟩, habsent, ?_⟩
  rw [resolve_of_absent _ code habsent]

/-- Witness of C19: the scenario code 123456 resolves before the close and not after. -/
theorem close_then_resolve_fails_witness :
    (resolve scenarioStore "123456").reply = .json ⟨"Ana", 3, 50, some "old"⟩ ∧
    (resolve (close sampleStringify scenarioStore 60 "123456" scenarioBody).store
      "123456").reply = .onError ⟨.number (-3001), "Cant find the code 123456"⟩ :=
  ⟨by decide,
    (close_then_resolve_fails sampleStringify scenarioStore 60 "123456" scenarioBody
      "Code 123456 closed." (by decide) (by decide)).2.2⟩

/-- C20 as stated fails: the reserved code is in Codes but its owner, user 5, is not a
row of Users; close succeeds and keeps the row, and the resolve that follows joins
Codes with Users, finds nothing and answers with the code-not-found error. -/
theorem close_sentinel_orphan_not_resolvable :
    (∃ c ∈ danglingSentinelStore.codes, c.code = "778199") ∧
    (close sampleStringify danglingSentinelStore 60 "778199" scenarioBody).reply =
      .json "Code 778199 closed." ∧
    (close sampleStringify danglingSentinelStore 60 "778199" scenarioBody).store.codes =
      danglingSentinelStore.codes ∧
    (resolve (close sampleStringify danglingSentinelStore 60 "778199" scenarioBody).store
      "778199").reply = .onError ⟨.number (-3001), "Cant find the code 778199"⟩ := by
  decide

/-- C20 (amended): for every store, a successful close of the reserved code 778199
stores the result row but leaves the Codes table and the Users table unchanged, so the
row of the code is retained with the same owner, scene and used flag; and when the
owner of that row is a row of Users, a resolve of 778199 that follows succeeds and
answers with the scene and creation time of the row. -/
theorem close_sentinel_retained (stringify : CloseBody → String) (store : Store) (now : Nat)
    (body : CloseBody) (message : String)
    (hsuccess : (close stringify store now "778199" body).reply = .json message) :
    (close stringify store now "778199" body).store.codes = store.codes ∧
    (close stringify store now "778199" body).store.users = store.users ∧
    ∃ c ∈ store.codes, c.code = "778199" ∧
      c ∈ (close stringify store now "778199" body).store.codes ∧
      (⟨c.userid, 2, c.scene, now, stringify body, body.signals.length,
          countOK body.signals, body.distances.length, countOK body.distances⟩ :
        ResultRow) ∈ (close stringify store now "778199" body).store.results ∧
      ((∃ u ∈ store.users, u.id = c.userid) →
        ∃ r, (resolve (close stringify store now "778199" body).store "778199").reply =
          .json r ∧ r.scene = c.scene ∧ r.created = c.created) := by
  obtain ⟨c, hfilter, hresults, husers, hcodes, -⟩ :=
    close_of_success stringify store now "778199" body message hsuccess
  have hkeep : (close stringify store now "778199" body).store.codes = store.codes := by
    rw [hcodes]
    simp [sentinel]
  have hc := mem_codes_of_filter_eq store "778199" c hfilter
  refine ⟨hkeep, husers, c, hc.1, hc.2, ?_, ?_, ?_⟩
  · rw [hkeep]; exact hc.1
  · rw [hresults]; simp
  · intro howner
    apply resolve_of_owner _ "778199" c
    · rw [hkeep]; exact hfilter
    · rw [husers]; exact howner

/-- Witness of C20 (amended): the reserved code of user 7 stays in Codes after a
close. -/
theorem close_sentinel_retained_witness :
    (close sampleStringify sentinelStore 60 "778199" scenarioBody).reply =
      .json "Code 778199 closed." ∧
    (close sampleStringify sentinelStore 60 "778199" scenarioBody).store.codes =
      sentinelStore.codes :=
  ⟨by decide,
    (close_sentinel_retained sampleStringify sentinelStore 60 scenarioBody
      "Code 778199 closed." (by decide)).1⟩

/-! ## The invariant of sequential execution -/

theorem atMostOneUnused_of_sublist (before after : Store)
    (hsub : after.codes.Sublist before.codes) (hinv : AtMostOneUnused before) :
    AtMostOneUnused after := by
  intro userid scene
  exact le_trans (hsub.filter _).length_le (hinv userid scene)

theorem close_codes_sublist (stringify : CloseBody → String) (store : Store) (now : Nat)
    (code : String) (body : CloseBody) :
    (close stringify store now code body).store.codes.Sublist store.codes := by
  unfold close
  simp only
  split
  · exact List.Sublist.refl _
  · split
    · exact List.Sublist.refl _
    · split
      · split
        · exact List.filter_sublist _
        · exact List.filter_sublist _
      · exact List.Sublist.refl _

theorem issueOrReuse_preserves (store : Store) (now : Nat) (random : Nat → ℚ)
    (userid scene : Int) (hinv : AtMostOneUnused store) :
    AtMostOneUnused (issueOrReuse store now random userid scene).store := by
  cases hfind : findUnused store.codes userid scene with
  | some res =>
    rw [issueOrReuse_of_found store now random userid scene res hfind]
    exact hinv
  | none =>
    by_cases hclash : ∃ c ∈ store.codes, c.code = generateCode random
    · rw [issueOrReuse_of_collision store now random userid scene hfind hclash]
      exact hinv
    · have hfresh : ∀ c ∈ store.codes, c.code ≠ generateCode random := by
        intro c hc hcode
        exact hclash ⟨c, hc, hcode⟩
      rw [issueOrReuse_of_fresh store now random userid scene hfind hfresh]
      intro u s
      simp only [List.filter_append]
      by_cases hpair : u = userid ∧ s = scene
      · obtain ⟨hu, hs⟩ := hpair
        subst hu hs
        have hold : store.codes.filter
            (fun c => c.userid == u && c.scene == s && c.used == some 0) = [] := by
          unfold findUnused at hfind
          rw [List.find?_eq_none] at hfind
          rw [List.filter_eq_nil_iff]
          exact hfind
        rw [hold]
        simp
      · have hnew : [(⟨generateCode random, some 0, now, userid, scene⟩ : CodeRow)].filter
            (fun c => c.userid == u && c.scene == s && c.used == some 0) = [] := by
          rw [List.filter_eq_nil_iff]
          intro c hc
          rw [List.mem_singleton] at hc
          subst hc
          intro h
          simp at h
          exact hpair ⟨h.1.symm, h.2.symm⟩
        rw [hnew]
        simpa using hinv u s

theorem call_preserves (stringify : CloseBody → String) (store : Store) (call : Call)
    (hinv : AtMostOneUnused store) : AtMostOneUnused (call.run stringify store) := by
  cases call with
  | issueOrReuse now random userid scene =>
    exact issueOrReuse_preserves store now random userid scene hinv
  | close now code body =>
    exact atMostOneUnused_of_sublist store _
      (close_codes_sublist stringify store now code body) hinv

/-- C14: at most one unused code per pair is an invariant of sequential execution.
Starting from any store in which every pair of user and scene has at most one Codes row
with used = 0, after any finite sequence of issueOrReuse and close calls, with any
inputs, successful or not, every pair still has at most one Codes row with used = 0;
a store with an empty Codes table is such a starting point. -/
theorem runCalls_preserves_atMostOneUnused (stringify : CloseBody → String) (store : Store)
    (calls : List Call) (hinit : AtMostOneUnused store) :
    AtMostOneUnused (runCalls stringify store calls) ∧
    (∀ empty : Store, empty.codes = [] → AtMostOneUnused empty) := by
  constructor
  · unfold runCalls
    induction calls generalizing store with
    | nil => exact hinit
    | cons call rest ih =>
      simp only [List.foldl]
      exact ih _ (call_preserves stringify store call hinit)
  · intro empty hempty userid scene
    simp [hempty]

/-- Witness of C14: from a store without codes, issue twice for the same pair, close an
unknown code and issue for another pair. -/
theorem runCalls_preserves_atMostOneUnused_witness :
    AtMostOneUnused emptyCodesStore ∧
    AtMostOneUnused (runCalls sampleStringify emptyCodesStore
      [.issueOrReuse 50 (fun _ => 0) 7 3, .issueOrReuse 51 (fun _ => 1 / 2) 7 3,
        .close 60 "999999" scenarioBody, .issueOrReuse 61 (fun _ => 1 / 2) 7 4]) :=
  have hinit : AtMostOneUnused emptyCodesStore := fun userid scene => by
    simp [emptyCodesStore]
  ⟨hinit,
    (runCalls_preserves_atMostOneUnused sampleStringify emptyCodesStore _ hinit).1⟩

/-! ## close: replacement, reachability and frame -/

theorem insertResults_error (rows results : List ResultRow) (error : Caught)
    (herr : insertResults results rows = .error error) :
    error = constraintViolation "Results.userid, Results.platform, Results.scene" := by
  induction rows generalizing results with
  | nil => simp [insertResults] at herr
  | cons row rest ih =>
    simp only [insertResults] at herr
    split at herr
    · simp at herr
      exact herr.symm
    · exact ih _ herr

theorem length_filter_code (codes : List CodeRow) (code : String) :
    codes.length - (codes.filter (fun c => c.code != code)).length =
      (codes.filter (fun c => c.code == code)).length := by
  induction codes with
  | nil => simp
  | cons c rest ih =>
    have hle : (rest.filter (fun c => c.code != code)).length ≤ rest.length :=
      List.length_filter_le _ _
    by_cases h : c.code = code
    · simp [List.filter_cons, h]
      omega
    · simp [List.filter_cons, h]
      omega

theorem close_store_shape (stringify : CloseBody → String) (store : Store) (now : Nat)
    (code : String) (body : CloseBody) :
    ((close stringify store now code body).store.results = deletePriorResults store code ∨
      (close stringify store now code body).store.results =
        deletePriorResults store code ++ closeRows stringify store now code body) ∧
    ((close stringify store now code body).store.codes = store.codes ∨
      (close stringify store now code body).store.codes =
        store.codes.filter (fun c => c.code != code)) ∧
    (close stringify store now code body).store.users = store.users := by
  unfold close
  simp only
  cases hins : insertResults (deletePriorResults store code)
      (closeRows stringify store now code body) with
  | error e => exact ⟨Or.inl rfl, Or.inl rfl, rfl⟩
  | ok results2 =>
    have hres := insertResults_ok _ _ _ hins
    subst hres
    simp only
    split
    · exact ⟨Or.inr rfl, Or.inl rfl, rfl⟩
    · split
      · split
        · exact ⟨Or.inr rfl, Or.inr rfl, rfl⟩
        · exact ⟨Or.inr rfl, Or.inr rfl, rfl⟩
      · exact ⟨Or.inr rfl, Or.inl rfl, rfl⟩

theorem filter_key_deletePriorResults (store : Store) (code : String) (c : CodeRow)
    (hc : c ∈ store.codes) (hcode : c.code = code) :
    (deletePriorResults store code).filter
      (fun r => r.userid == c.userid && r.platform == 2 && r.scene == c.scene) = [] := by
  rw [List.filter_eq_nil_iff]
  intro r hr hkey
  unfold deletePriorResults at hr
  rw [List.mem_filter] at hr
  have hany : store.codes.any (fun c =>
      c.code == code && r.userid == c.userid && r.platform == 2 && r.scene == c.scene) =
      true := by
    rw [List.any_eq_true]
    refine ⟨c, hc, ?_⟩
    simp only [Bool.and_eq_true, beq_iff_eq] at hkey ⊢
    exact ⟨⟨⟨hcode, hkey.1.1⟩, hkey.1.2⟩, hkey.2⟩
  simp [hany] at hr

/-- C21: for every store, after a successful close of a code whose row in Codes is bound
to user u and scene s, the Results table contains exactly one row with userid = u,
platform = 2 and scene = s, and it is the newly computed row (the time of the call, the
serialised body and the computed counts), whether or not such a row existed before the
call. -/
theorem close_replaces_result (stringify : CloseBody → String) (store : Store) (now : Nat)
    (code : String) (body : CloseBody) (message : String)
    (hsuccess : (close stringify store now code body).reply = .json message) :
    ∃ c ∈ store.codes, c.code = code ∧
      (close stringify store now code body).store.results.filter
        (fun r => r.userid == c.userid && r.platform == 2 && r.scene == c.scene) =
        [⟨c.userid, 2, c.scene, now, stringify body, body.signals.length,
          countOK body.signals, body.distances.length, countOK body.distances⟩] := by
  obtain ⟨c, hfilter, hresults, -, -, -⟩ :=
    close_of_success stringify store now code body message hsuccess
  have hc := mem_codes_of_filter_eq store code c hfilter
  refine ⟨c, hc.1, hc.2, ?_⟩
  rw [hresults, List.filter_append, filter_key_deletePriorResults store code c hc.1 hc.2]
  simp

/-- Witness of C21: in the scenario store user 7 already has a VR result for scene 3;
after the close the only such row is the new one. -/
theorem close_replaces_result_witness :
    (close sampleStringify scenarioStore 60 "123456" scenarioBody).store.results.filter
        (fun r => r.userid == 7 && r.platform == 2 && r.scene == 3) =
      [⟨7, 2, 3, 60, sampleStringify scenarioBody, 2, 1, 1, 1⟩] ∧
    ∃ c ∈ scenarioStore.codes, c.code = "123456" ∧
      (close sampleStringify scenarioStore 60 "123456" scenarioBody).store.results.filter
        (fun r => r.userid == c.userid && r.platform == 2 && r.scene == c.scene) =
        [⟨c.userid, 2, c.scene, 60, sampleStringify scenarioBody,
          scenarioBody.signals.length, countOK scenarioBody.signals,
          scenarioBody.distances.length, countOK scenarioBody.distances⟩] :=
  ⟨by decide,
    close_replaces_result sampleStringify scenarioStore 60 "123456" scenarioBody
      "Code 123456 closed." (by decide)⟩

/-- C28: with non-failing storage the second code-not-found branch of close is
unreachable. For every store, code and report lists, whenever the result insert reports
exactly one change the delete of the code reports exactly one change as well, and close
never answers with the error code -3203. -/
theorem close_never_3203 (stringify : CloseBody → String) (store : Store) (now : Nat)
    (code : String) (body : CloseBody) :
    ((closeRows stringify store now code body).length = 1 →
      store.codes.length - (store.codes.filter (fun c => c.code != code)).length = 1) ∧
    ∀ text, (close stringify store now code body).reply ≠
      .onError ⟨.number (-3203), text⟩ := by
  have hchanges : (closeRows stringify store now code body).length = 1 →
      store.codes.length - (store.codes.filter (fun c => c.code != code)).length = 1 := by
    intro hlen
    rw [length_filter_code]
    simpa [closeRows] using hlen
  refine ⟨hchanges, ?_⟩
  intro text
  unfold close
  simp only
  cases hins : insertResults (deletePriorResults store code)
      (closeRows stringify store now code body) with
  | error e =>
    rw [insertResults_error _ _ _ hins]
    simp [report, constraintViolation]
  | ok results2 =>
    simp only
    by_cases hlen : (closeRows stringify store now code body).length ≠ 1
    · rw [if_pos hlen]
      simp [report]
    · rw [if_neg hlen]
      have hone := hchanges (by omega)
      by_cases hsent : code ≠ sentinel
      · rw [if_pos hsent, if_neg (by omega)]
        simp
      · rw [if_neg hsent]
        simp

/-- C29: frame of close. For every store and every code whose rows in Codes are bound
to user u and scene s, a close call, successful or not, leaves unchanged, in content
and order, the Results rows other than those keyed (u, 2, s); whatever the code, it
leaves unchanged all web-platform (platform 1) rows, every Codes row of another code,
and the Users table. -/
theorem close_frame (stringify : CloseBody → String) (store : Store) (now : Nat)
    (code : String) (body : CloseBody) :
    (∀ u s : Int, (∀ c ∈ store.codes, c.code = code → c.userid = u ∧ c.scene = s) →
      (close stringify store now code body).store.results.filter
        (fun r => !(r.userid == u && r.platform == 2 && r.scene == s)) =
      store.results.filter (fun r => !(r.userid == u && r.platform == 2 && r.scene == s))) ∧
    (close stringify store now code body).store.results.filter (fun r => r.platform == 1) =
      store.results.filter (fun r => r.platform == 1) ∧
    (close stringify store now code body).store.codes.filter (fun c => c.code != code) =
      store.codes.filter (fun c => c.code != code) ∧
    (close stringify store now code body).store.users = store.users := by
  obtain ⟨hresults, hcodes, husers⟩ := close_store_shape stringify store now code body
  refine ⟨?_, ?_, ?_, husers⟩
  · intro u s hbound
    have hdel : (deletePriorResults store code).filter
        (fun r => !(r.userid == u && r.platform == 2 && r.scene == s)) =
        store.results.filter
          (fun r => !(r.userid == u && r.platform == 2 && r.scene == s)) := by
      unfold deletePriorResults
      rw [List.filter_filter]
      apply List.filter_congr
      intro r _
      cases hkey : (r.userid == u && r.platform == 2 && r.scene == s)
      · have hany : store.codes.any (fun c =>
            c.code == code && r.userid == c.userid && r.platform == 2 &&
              r.scene == c.scene) = false := by
          rw [List.any_eq_false]
          intro c hc hmatch
          simp only [Bool.and_eq_true, beq_iff_eq] at hmatch
          obtain ⟨hu, hs⟩ := hbound c hc hmatch.1.1.1
          have : (r.userid == u && r.platform == 2 && r.scene == s) = true := by
            simp only [Bool.and_eq_true, beq_iff_eq]
            exact ⟨⟨hmatch.1.1.2.trans hu, hmatch.1.2⟩, hmatch.2.trans hs⟩
          rw [hkey] at this
          exact Bool.false_ne_true this
        simp [hany]
      · simp
    have hrows : (closeRows stringify store now code body).filter
        (fun r => !(r.userid == u && r.platform == 2 && r.scene == s)) = [] := by
      rw [List.filter_eq_nil_iff]
      intro r hr
      unfold closeRows at hr
      rw [List.mem_map] at hr
      obtain ⟨c, hc, hrc⟩ := hr
      rw [List.mem_filter] at hc
      obtain ⟨hu, hs⟩ := hbound c hc.1 (by simpa using hc.2)
      subst hrc
      simp [hu, hs]
    rcases hresults with h | h
    · rw [h, hdel]
    · rw [h, List.filter_append, hdel, hrows, List.append_nil]
  · have hdel : (deletePriorResults store code).filter (fun r => r.platform == 1) =
        store.results.filter (fun r => r.platform == 1) := by
      unfold deletePriorResults
      rw [List.filter_filter]
      apply List.filter_congr
      intro r _
      cases hplat : (r.platform == 1)
      · simp
      · have h1 : r.platform = 1 := by simpa using hplat
        simp [h1]
    have hrows : (closeRows stringify store now code body).filter
        (fun r => r.platform == 1) = [] := by
      rw [List.filter_eq_nil_iff]
      intro r hr
      unfold closeRows at hr
      rw [List.mem_map] at hr
      obtain ⟨c, -, hrc⟩ := hr
      subst hrc
      simp
    rcases hresults with h | h
    · rw [h, hdel]
    · rw [h, List.filter_append, hdel, hrows, List.append_nil]
  · rcases hcodes with h | h
    · rw [h]
    · rw [h, List.filter_filter]
      apply List.filter_congr
      intro c _
      simp

/-- Witness of C29: closing the scenario code leaves the web result of user 7 and every
row not keyed (7, 2, 3) as they were. -/
theorem close_frame_witness :
    (close sampleStringify scenarioStore 60 "123456" scenarioBody).store.results.filter
        (fun r => r.platform == 1) = [⟨7, 1, 3, 21, "web", 4, 4, 4, 4⟩] ∧
    (close sampleStringify scenarioStore 60 "123456" scenarioBody).store.results.filter
        (fun r => !(r.userid == 7 && r.platform == 2 && r.scene == 3)) =
      scenarioStore.results.filter
        (fun r => !(r.userid == 7 && r.platform == 2 && r.scene == 3)) :=
  ⟨by decide,
    (close_frame sampleStringify scenarioStore 60 "123456" scenarioBody).1 7 3
      (by decide)⟩

/-- Witness of C28: in the scenario store the insert and the delete both change one
row. -/
theorem close_never_3203_witness :
    (closeRows sampleStringify scenarioStore 60 "123456" scenarioBody).length = 1 ∧
    scenarioStore.codes.length -
      (scenarioStore.codes.filter (fun c => c.code != "123456")).length = 1 :=
  ⟨by decide,
    (close_never_3203 sampleStringify scenarioStore 60 "123456" scenarioBody).1
      (by decide)⟩

/-! ## close under storage failures -/

theorem closeUnder_noCloseFaults (stringify : CloseBody → String) (store : Store) (now : Nat)
    (code : String) (body : CloseBody) :
    closeUnder noCloseFaults stringify store now code body =
      close stringify store now code body := by
  unfold closeUnder close noCloseFaults
  rfl

theorem closeUnder_deleteCode_fault (failure : DriverError) (stringify : CloseBody → String)
    (store : Store) (now : Nat) (code : String) (body : CloseBody) (message : String)
    (hne : code ≠ sentinel)
    (hsuccess : (close stringify store now code body).reply = .json message) :
    closeUnder ⟨none, none, some failure⟩ stringify store now code body =
      ⟨{ store with results := (close stringify store now code body).store.results },
        .onError (report (-3200) failure.caught)⟩ := by
  obtain ⟨c, hfilter, hresults, -, -, -⟩ :=
    close_of_success stringify store now code body message hsuccess
  have hrows : closeRows stringify store now code body =
      [⟨c.userid, 2, c.scene, now, stringify body, body.signals.length,
        countOK body.signals, body.distances.length, countOK body.distances⟩] := by
    simp [closeRows, hfilter]
  rw [hresults]
  unfold closeUnder
  simp only
  cases hins : insertResults (deletePriorResults store code)
      (closeRows stringify store now code body) with
  | error e =>
    unfold close at hsuccess
    simp only [hins] at hsuccess
    simp at hsuccess
  | ok results2 =>
    have hres := insertResults_ok _ _ _ hins
    subst hres
    simp [hrows, hne]

/-- C22 as stated fails: in the scenario store the delete of the code fails with a
locked database after the result was replaced. The handler reports the error, the old
result of user 7 for scene 3 is gone and the new one is stored, yet the code 123456 is
still in Codes: neither both effects nor none of them. -/
theorem close_not_atomic :
    (closeUnder ⟨none, none, some busyError⟩ sampleStringify scenarioStore 60 "123456"
      scenarioBody).reply =
      .onError ⟨.text "SQLITE_BUSY", "SQLITE_BUSY: database is locked"⟩ ∧
    (closeUnder ⟨none, none, some busyError⟩ sampleStringify scenarioStore 60 "123456"
      scenarioBody).store.codes = scenarioStore.codes ∧
    (closeUnder ⟨none, none, some busyError⟩ sampleStringify scenarioStore 60 "123456"
      scenarioBody).store.results =
      [⟨7, 1, 3, 21, "web", 4, 4, 4, 4⟩,
        ⟨7, 2, 3, 60, sampleStringify scenarioBody, 2, 1, 1, 1⟩] ∧
    (closeUnder ⟨none, none, some busyError⟩ sampleStringify scenarioStore 60 "123456"
      scenarioBody).store ≠ scenarioStore ∧
    (closeUnder ⟨none, none, some busyError⟩ sampleStringify scenarioStore 60 "123456"
      scenarioBody).store ≠
      (close sampleStringify scenarioStore 60 "123456" scenarioBody).store := by
  decide

/-- C22 (amended): close runs its three statements one after the other, each committed
on its own. For every store, code and report lists: a storage failure at the delete of
the prior result leaves the store exactly as it was; a failure at the insert of the new
result leaves the prior result deleted, nothing inserted and Codes as it was; a failure
at the delete of the code, reached when the close would otherwise succeed for a code
other than 778199, leaves the result replaced and Codes as it was; and without a
failure the handler is the plain close. Each failure is reported through onError with
the code and message of the driver error. -/
theorem closeUnder_step_effects (failure : DriverError) (rest2 rest3 : Option DriverError)
    (stringify : CloseBody → String) (store : Store) (now : Nat) (code : String)
    (body : CloseBody) :
    closeUnder ⟨some failure, rest2, rest3⟩ stringify store now code body =
      ⟨store, .onError (report (-3200) failure.caught)⟩ ∧
    closeUnder ⟨none, some failure, rest3⟩ stringify store now code body =
      ⟨{ store with results := deletePriorResults store code },
        .onError (report (-3200) failure.caught)⟩ ∧
    (code ≠ "778199" → (∃ text, (close stringify store now code body).reply = .json text) →
      closeUnder ⟨none, none, some failure⟩ stringify store now code body =
        ⟨{ store with results := (close stringify store now code body).store.results },
          .onError (report (-3200) failure.caught)⟩) ∧
    closeUnder ⟨none, none, none⟩ stringify store now code body =
      close stringify store now code body := by
  refine ⟨rfl, rfl, ?_, closeUnder_noCloseFaults stringify store now code body⟩
  intro hne hsuccess
  obtain ⟨text, htext⟩ := hsuccess
  exact closeUnder_deleteCode_fault failure stringify store now code body text hne htext

/-- Witness of C22 (amended): the failure at the delete of the code in the scenario
store. -/
theorem closeUnder_step_effects_witness :
    closeUnder ⟨none, none, some busyError⟩ sampleStringify scenarioStore 60 "123456"
        scenarioBody =
      ⟨{ scenarioStore with
          results := (close sampleStringify scenarioStore 60 "123456" scenarioBody).store.results },
        .onError (report (-3200) busyError.caught)⟩ :=
  (closeUnder_step_effects busyError none none sampleStringify scenarioStore 60 "123456"
    scenarioBody).2.2.1 (by decide) ⟨"Code 123456 closed.", by decide⟩

/-! ## resolve: the answer -/

theorem find?_eq_head?_filter_results (results : List ResultRow) (p : ResultRow → Bool) :
    results.find? p = (results.filter p).head? := by
  induction results with
  | nil => rfl
  | cons r rest ih =>
    cases hp : p r
    · rw [List.find?_cons_of_neg _ (by simp [hp]), List.filter_cons_of_neg (by simp [hp])]
      exact ih
    · rw [List.find?_cons_of_pos _ hp, List.filter_cons_of_pos hp]
      rfl

/-- C23 as stated fails: the answer of resolve does not carry the user id of the owner.
Two stores that differ only in the id of the owner, 7 in one and 8 in the other, get the
same answer for the code, made of the name, the scene, the creation time and the
data. -/
theorem resolve_omits_owner_id :
    (anaStore 7).users.map (fun u => u.id) = [7] ∧
    (anaStore 8).users.map (fun u => u.id) = [8] ∧
    (resolve (anaStore 7) "123456").reply = .json ⟨"Ana", 3, 50, none⟩ ∧
    (resolve (anaStore 8) "123456").reply = (resolve (anaStore 7) "123456").reply := by
  decide

/-- C23 (amended): for every store and every code whose row in Codes has owner id u and
scene s and whose owner is a row of Users, resolve leaves the store unchanged and
answers with the name of the owner, the scene, the creation time of the code, and as
data the data of the VR-platform (platform 2) Results row for (u, s) when there is one
and null when there is none; the answer has no field for the user id of the owner. -/
theorem resolve_returns (store : Store) (code : String) (c : CodeRow) (owner : UserRow)
    (hcode : store.codes.filter (fun c => c.code == code) = [c])
    (howner : store.users.filter (fun u => c.userid == u.id) = [owner]) :
    (resolve store code).store = store ∧
    ∃ data, (resolve store code).reply = .json ⟨owner.name, c.scene, c.created, data⟩ ∧
      (∀ row, store.results.filter
          (fun r => r.userid == c.userid && r.platform == 2 && r.scene == c.scene) = [row] →
        data = some row.data) ∧
      (store.results.filter
          (fun r => r.userid == c.userid && r.platform == 2 && r.scene == c.scene) = [] →
        data = none) := by
  have hid : owner.id = c.userid := by
    have hmem : owner ∈ store.users.filter (fun u => c.userid == u.id) := by
      rw [howner]; exact List.mem_singleton.mpr rfl
    rw [List.mem_filter] at hmem
    have := hmem.2
    simp at this
    exact this.symm
  have hjoin : findCodeOwner store code = some (owner.id, owner.name, c.scene, c.created) := by
    simp [findCodeOwner, hcode, howner]
  constructor
  · unfold resolve
    rw [hjoin]
  · refine ⟨(store.results.find?
      (fun r => r.userid == c.userid && r.platform == 2 && r.scene == c.scene)).map
        (fun r => r.data), ?_, ?_, ?_⟩
    · unfold resolve
      rw [hjoin]
      simp only [hid]
    · intro row hrow
      rw [find?_eq_head?_filter_results, hrow]
      rfl
    · intro hnone
      rw [find?_eq_head?_filter_results, hnone]
      rfl

/-- Witness of C23 (amended): the scenario code resolves to Ana, scene 3, and the data
of her earlier VR result. -/
theorem resolve_returns_witness :
    (resolve scenarioStore "123456").reply = .json ⟨"Ana", 3, 50, some "old"⟩ ∧
    (resolve scenarioStore "123456").store = scenarioStore :=
  ⟨by decide,
    (resolve_returns scenarioStore "123456" ⟨"123456", some 0, 50, 7, 3⟩
      ⟨7, "ana@example.org", "hash", 0, "Ana", 0, 100⟩ (by decide) (by decide)).1⟩

/-! ## issueOrReuse: collisions -/

theorem generateCode_congr (random1 random2 : Nat → ℚ)
    (hsame : ∀ i, i < 6 → random1 i = random2 i) :
    generateCode random1 = generateCode random2 := by
  have hr : List.range 6 = [0, 1, 2, 3, 4, 5] := by decide
  unfold generateCode
  rw [hr]
  simp only [List.foldl, hsame 0 (by omega), hsame 1 (by omega), hsame 2 (by omega),
    hsame 3 (by omega), hsame 4 (by omega), hsame 5 (by omega)]

theorem generateCode_halves : generateCode (fun _ => 1 / 2) = "555555" := by
  have hr : List.range 6 = [0, 1, 2, 3, 4, 5] := by decide
  have hlen : (characters.length : ℚ) = 10 := by
    have : characters.length = 10 := by decide
    rw [this]; norm_num
  have hfloor : ⌊roundDouble ((1 / 2 : ℚ) * (characters.length : ℚ))⌋ = 5 := by
    have hprod : (1 / 2 : ℚ) * 10 = 5 := by norm_num
    rw [hlen, hprod, roundDouble_five]
    norm_num
  unfold generateCode
  rw [hr]
  simp only [List.foldl, hfloor]
  rfl

/-- C24 as stated fails: the first candidate, from six draws of 0, is the code 000000
that another user already holds. A second candidate from the following six draws would
be 555555, which is free, but the handler makes no second attempt: it answers with the
driver error of the failed insert and issues no code. -/
theorem issueOrReuse_no_second_attempt :
    generateCode zerosThenHalves = "000000" ∧
    generateCode (fun i => zerosThenHalves (i + 6)) = "555555" ∧
    (∀ c ∈ collisionStore.codes, c.code ≠ "555555") ∧
    (issueOrReuse collisionStore 50 zerosThenHalves 7 3).reply =
      .onError ⟨.text "SQLITE_CONSTRAINT",
        "SQLITE_CONSTRAINT: UNIQUE constraint failed: Codes.code"⟩ ∧
    (issueOrReuse collisionStore 50 zerosThenHalves 7 3).store = collisionStore := by
  have hfirst : generateCode zerosThenHalves = "000000" := by
    rw [generateCode_congr zerosThenHalves (fun _ => 0)
      (by intro i hi; simp [zerosThenHalves, hi]), generateCode_zero]
  have hsecond : generateCode (fun i => zerosThenHalves (i + 6)) = "555555" := by
    rw [generateCode_congr (fun i => zerosThenHalves (i + 6)) (fun _ => 1 / 2)
      (by intro i _; simp [zerosThenHalves]), generateCode_halves]
  have h := issueOrReuse_of_collision collisionStore 50 zerosThenHalves 7 3 rfl
    ⟨⟨"000000", some 0, 10, 99, 1⟩, by simp [collisionStore], hfirst.symm⟩
  rw [h]
  exact ⟨hfirst, hsecond, by decide, rfl, rfl⟩

/-- C24 (amended): when the candidate generated from the six draws collides with a code
already in Codes, issueOrReuse does not retry. For every store without an unused code
for the user and scene, the single insert fails on the primary key, the handler reports
the driver error with code SQLITE_CONSTRAINT through onError, returns no code and
leaves the store unchanged; draws after the sixth have no influence on the call. -/
theorem issueOrReuse_no_retry (store : Store) (now : Nat) (random : Nat → ℚ)
    (userid scene : Int) (hnone : findUnused store.codes userid scene = none)
    (hclash : ∃ c ∈ store.codes, c.code = generateCode random) :
    (issueOrReuse store now random userid scene).reply =
      .onError ⟨.text "SQLITE_CONSTRAINT",
        "SQLITE_CONSTRAINT: UNIQUE constraint failed: Codes.code"⟩ ∧
    (∀ code, (issueOrReuse store now random userid scene).reply ≠ .json code) ∧
    (issueOrReuse store now random userid scene).store = store ∧
    (∀ later : Nat → ℚ, (∀ i, i < 6 → later i = random i) →
      issueOrReuse store now later userid scene =
        issueOrReuse store now random userid scene) := by
  rw [issueOrReuse_of_collision store now random userid scene hnone hclash]
  refine ⟨rfl, ?_, rfl, ?_⟩
  · intro code h
    simp at h
  · intro later hsame
    have hcode := generateCode_congr later random hsame
    apply issueOrReuse_of_collision store now later userid scene hnone
    rw [hcode]
    exact hclash

/-- Witness of C24 (amended): six draws of 0 against the store that holds 000000. -/
theorem issueOrReuse_no_retry_witness :
    (issueOrReuse collisionStore 50 (fun _ => 0) 7 3).store = collisionStore :=
  (issueOrReuse_no_retry collisionStore 50 (fun _ => 0) 7 3 rfl
    ⟨⟨"000000", some 0, 10, 99, 1⟩, by simp [collisionStore], generateCode_zero.symm⟩).2.2.1

/-! ## The global error handler (server.js) -/

theorem validateToken_routerNext_cases (jwt : Jwt) (request : Request) :
    (validateToken jwt request routerNext).thrown =
      some (.object (tokenRequired request.originalUrl)) ∨
    (validateToken jwt request routerNext).thrown = some (.object invalidToken) ∨
    ∃ (p : Payload) (token : String), validateToken jwt request routerNext =
      { request := { request with user := some p }, nextCalls := [none],
        validateCalls := [token], console := [], thrown := none } := by
  unfold validateToken
  simp only
  split
  · cases hvalid : jwt.validate ((request.header "auth-token").getD "") with
    | error cause => exact Or.inr (Or.inl rfl)
    | ok p => exact Or.inr (Or.inr ⟨p, _, rfl⟩)
  · exact Or.inl rfl

theorem mounted_cases (path : String) :
    mounted path = none ∨
    (∃ r, mounted path = some [.routes r]) ∨
    (∃ r, mounted path = some [.stage .validateToken, .routes r]) ∨
    (∃ r, mounted path =
      some [.stage .validateToken, .stage .validateSupervisorLevel, .routes r]) := by
  by_cases h1 : path = "/auth"
  · subst h1; exact Or.inr (Or.inl ⟨.auth, by decide⟩)
  by_cases h2 : path = "/user"
  · subst h2; exact Or.inr (Or.inr (Or.inl ⟨.user, by decide⟩))
  by_cases h3 : path = "/codes"
  · subst h3; exact Or.inr (Or.inl ⟨.codes, by decide⟩)
  by_cases h4 : path = "/license"
  · subst h4; exact Or.inr (Or.inr (Or.inr ⟨.license, by decide⟩))
  by_cases h5 : path = "/results"
  · subst h5; exact Or.inr (Or.inr (Or.inr ⟨.results, by decide⟩))
  by_cases h6 : path = "/modules"
  · subst h6; exact Or.inr (Or.inr (Or.inl ⟨.modules, by decide⟩))
  left
  have e1 : ("/auth" == path) = false := by simpa using Ne.symm h1
  have e2 : ("/user" == path) = false := by simpa using Ne.symm h2
  have e3 : ("/codes" == path) = false := by simpa using Ne.symm h3
  have e4 : ("/license" == path) = false := by simpa using Ne.symm h4
  have e5 : ("/results" == path) = false := by simpa using Ne.symm h5
  have e6 : ("/modules" == path) = false := by simpa using Ne.symm h6
  simp [mounted, restRouter, List.find?, e1, e2, e3, e4, e5, e6]

theorem dispatch_token_rejected (jwt : Jwt) (rest : List Handler) (request : Request)
    (value : Thrown)
    (hrest : ∀ p : Payload, (dispatch jwt rest { request with user := some p }).outcome =
      .rejected value → ∃ error, value = .object error ∧ error.code < 0)
    (houtcome : (dispatch jwt (.stage .validateToken :: rest) request).outcome =
      .rejected value) :
    ∃ error, value = .object error ∧ error.code < 0 := by
  rcases validateToken_routerNext_cases jwt request with h | h | ⟨p, token, h⟩
  · rw [dispatch_of_thrown jwt .validateToken rest request _ h] at houtcome
    simp only [Outcome.rejected.injEq] at houtcome
    exact ⟨_, houtcome.symm, by simp [tokenRequired]⟩
  · rw [dispatch_of_thrown jwt .validateToken rest request _ h] at houtcome
    simp only [Outcome.rejected.injEq] at houtcome
    exact ⟨_, houtcome.symm, by simp [invalidToken]⟩
  · have hcall : Stage.validateToken.call jwt request routerNext = _ := h
    rw [dispatch_of_passed jwt .validateToken rest request (by rw [hcall]) (by rw [hcall]),
      hcall] at houtcome
    exact hrest p houtcome

theorem dispatch_supervisor_rejected (jwt : Jwt) (r : Routes) (request : Request)
    (p : Payload) (value : Thrown)
    (houtcome : (dispatch jwt [.stage .validateSupervisorLevel, .routes r]
      { request with user := some p }).outcome = .rejected value) :
    ∃ error, value = .object error ∧ error.code < 0 := by
  by_cases hlevel : p.level > 10
  · have hcall : Stage.validateSupervisorLevel.call jwt { request with user := some p }
        routerNext = _ :=
      validateSupervisorLevel_of_gt { request with user := some p } p routerNext rfl hlevel
    rw [dispatch_of_passed jwt .validateSupervisorLevel [.routes r] _ (by rw [hcall])
      (by rw [hcall]; rfl)] at houtcome
    simp [dispatch] at houtcome
  · have hcall : Stage.validateSupervisorLevel.call jwt { request with user := some p }
        routerNext = _ :=
      validateSupervisorLevel_of_le { request with user := some p } p routerNext rfl
        (by omega)
    rw [dispatch_of_thrown jwt .validateSupervisorLevel [.routes r] _
      (.object supervisorRequired) (by rw [hcall])] at houtcome
    simp only [Outcome.rejected.injEq] at houtcome
    exact ⟨_, houtcome.symm, by simp [supervisorRequired]⟩

/-- Every value a mounted pipeline rejects a request with is one of the object literals
of the middlewares, whose code is negative; no runtime error leaves a pipeline. -/
theorem serve_rejected_object (jwt : Jwt) (path : String) (request : Request) (run : Run)
    (value : Thrown) (hserve : serve jwt path request = some run)
    (houtcome : run.outcome = .rejected value) :
    ∃ error, value = .object error ∧ error.code < 0 := by
  unfold serve at hserve
  rcases mounted_cases path with h | ⟨r, h⟩ | ⟨r, h⟩ | ⟨r, h⟩
  · rw [h] at hserve
    simp at hserve
  · rw [h] at hserve
    simp only [Option.map_some', Option.some.injEq] at hserve
    subst hserve
    simp [dispatch] at houtcome
  · rw [h] at hserve
    simp only [Option.map_some', Option.some.injEq] at hserve
    subst hserve
    apply dispatch_token_rejected jwt [.routes r] request value _ houtcome
    intro p hrest
    simp [dispatch] at hrest
  · rw [h] at hserve
    simp only [Option.map_some', Option.some.injEq] at hserve
    subst hserve
    apply dispatch_token_rejected jwt [.stage .validateSupervisorLevel, .routes r] request
      value _ houtcome
    intro p hrest
    exact dispatch_supervisor_rejected jwt r request p value hrest

theorem codeTruthy_report (fallback : Int) (caught : Caught) (hfallback : fallback < 0) :
    codeTruthy (some (report fallback caught).code) = true := by
  cases caught with
  | object error =>
    by_cases hcode : error.code = 0
    · have : fallback ≠ 0 := by omega
      simp [report, codeTruthy, hcode, this]
    · simp [report, codeTruthy, hcode]
  | driver code message =>
    by_cases hcode : code = ""
    · have : fallback ≠ 0 := by omega
      simp [report, codeTruthy, hcode, this]
    · simp [report, codeTruthy, hcode]

theorem errorHandler_of_truthy (toNumber : String → Option Int) (now : Nat)
    (error : ErrorValue) (value : CodeValue) (hcode : error.code = some value)
    (htruthy : codeTruthy (some value) = true)
    (hstatus : error.status = none ∨ error.status = some 0) :
    (errorHandler toNumber now error).body.code = value ∧
    (errorHandler toNumber now error).status =
      (if codeBelowZero toNumber (some value) then 400 else 500) := by
  rcases hstatus with h | h <;> simp [errorHandler, hcode, htruthy, h]

/-- Every delivered error value has a truthy code and no status of its own. -/
theorem delivered_code (jwt : Jwt) (error : ErrorValue) (hdelivered : Delivered jwt error) :
    error.status = none ∧
    ∃ value, error.code = some value ∧ codeTruthy (some value) = true := by
  cases hdelivered with
  | onError fallback caught hfallback =>
    exact ⟨rfl, _, rfl, codeTruthy_report fallback caught hfallback⟩
  | runtime fallback message hfallback =>
    have : fallback ≠ 0 := by omega
    exact ⟨rfl, _, rfl, by simp [codeTruthy, this]⟩
  | rejected path request run value hserve houtcome =>
    obtain ⟨e, hvalue, hneg⟩ := serve_rejected_object jwt path request run value hserve
      houtcome
    subst hvalue
    have : e.code ≠ 0 := by omega
    exact ⟨rfl, _, rfl, by simp [codeTruthy, this]⟩

/-- C25: for every error value the application hands to the global error handler (the
object of an onError call of a route handler, or a value thrown by a middleware of a
mounted pipeline; none of them has a status of its own), the code of the response
envelope is the code of the error value, and the HTTP status of the response is 400
when the code in the envelope is negative and 500 otherwise. -/
theorem errorHandler_status_delivered (jwt : Jwt) (toNumber : String → Option Int)
    (now : Nat) (error : ErrorValue) (hdelivered : Delivered jwt error) :
    error.status = none ∧
    error.code = some (errorHandler toNumber now error).body.code ∧
    ((errorHandler toNumber now error).status = 400 ↔
      codeBelowZero toNumber (some (errorHandler toNumber now error).body.code) = true) ∧
    ((errorHandler toNumber now error).status = 500 ↔
      codeBelowZero toNumber (some (errorHandler toNumber now error).body.code) = false) ∧
    (∀ n : Int, (errorHandler toNumber now error).body.code = .number n →
      ((errorHandler toNumber now error).status = 400 ↔ n < 0) ∧
      ((errorHandler toNumber now error).status = 500 ↔ ¬ n < 0)) := by
  obtain ⟨hstatus, value, hcode, htruthy⟩ := delivered_code jwt error hdelivered
  obtain ⟨hbody, hderived⟩ :=
    errorHandler_of_truthy toNumber now error value hcode htruthy (Or.inl hstatus)
  rw [hbody, hderived]
  refine ⟨hstatus, hcode, ?_, ?_, ?_⟩
  · cases hbelow : codeBelowZero toNumber (some value) <;> simp
  · cases hbelow : codeBelowZero toNumber (some value) <;> simp
  · intro n hn
    subst hn
    by_cases hlt : n < 0 <;> simp [codeBelowZero, hlt]

/-- Witness of C25: a request to /license without a token is rejected with the object of
code -8, which the global error handler answers with status 400; the code-not-found
error of close, code -3202, is answered with status 400 as well, and the driver error of
a refused insert, whose code is a string, with status 500. -/
theorem errorHandler_status_delivered_witness :
    (errorHandler sampleToNumber 99
      (Thrown.toError (.object (tokenRequired "/license/list/10/0")))).status = 400 ∧
    errorHandler sampleToNumber 99
        (report (-3200) (.object ⟨-3202, "Cant find the code 999999"⟩)).toError =
      ⟨400, ⟨.number (-3202), "Cant find the code 999999", 99⟩⟩ ∧
    (errorHandler sampleToNumber 99
      (report (-2100) (constraintViolation "Codes.code")).toError).status = 500 :=
  ⟨((errorHandler_status_delivered sampleJwt sampleToNumber 99
      (Thrown.toError (.object (tokenRequired "/license/list/10/0")))
      (Delivered.rejected "/license" (sampleRequest [] none)
        ⟨[.stage .validateToken], [], [],
          .rejected (.object (tokenRequired "/license/list/10/0"))⟩
        (.object (tokenRequired "/license/list/10/0")) (by decide) rfl)).2.2.2.2 (-8)
      rfl).1.mpr (by decide),
    by decide, by decide⟩

/-! ## Storage failures reach the client -/

/-- C27 as stated fails: a locked database and a failed disk write during the first
statement of close give two different envelopes, each carrying the message of the
driver error, so the message sent to the client depends on the internal message. -/
theorem storage_failure_message_leaks :
    errorResponseOf sampleToNumber 99
        (closeUnder ⟨some busyError, none, none⟩ sampleStringify scenarioStore 60 "123456"
          scenarioBody).reply =
      some ⟨500, ⟨.text "SQLITE_BUSY", "SQLITE_BUSY: database is locked", 99⟩⟩ ∧
    errorResponseOf sampleToNumber 99
        (closeUnder ⟨some diskError, none, none⟩ sampleStringify scenarioStore 60 "123456"
          scenarioBody).reply =
      some ⟨500, ⟨.text "SQLITE_IOERR", "SQLITE_IOERR: disk I/O error", 99⟩⟩ := by
  decide

/-- C27 (amended): whenever a statement of a core handler (issueOrReuse, resolve,
fetchOwnerImage, close) fails with a driver error of non-empty message m and non-empty
code that is not a number, the catch block of the handler hands the code and m on
through onError, and the envelope the global error handler sends carries the code of
the driver error and m itself as its message, with status 500. -/
theorem storage_failure_forwarded (toNumber : String → Option Int) (now : Nat)
    (failure : DriverError) (hmessage : failure.message ≠ "") (hcode : failure.code ≠ "")
    (hnan : toNumber failure.code = none) :
    (∀ fallback : Int,
      errorHandler toNumber now (report fallback failure.caught).toError =
        ⟨500, ⟨.text failure.code, failure.message, now⟩⟩) ∧
    (∀ store clock random userid scene insert,
      (issueOrReuseUnder ⟨some failure, insert⟩ store clock random userid scene).reply =
        .onError (report (-2100) failure.caught)) ∧
    (∀ store clock random userid scene, findUnused store.codes userid scene = none →
      (issueOrReuseUnder ⟨none, some failure⟩ store clock random userid scene).reply =
        .onError (report (-2100) failure.caught)) ∧
    (∀ store code selectResult,
      (resolveUnder ⟨some failure, selectResult⟩ store code).reply =
        .onError (report (-3000) failure.caught)) ∧
    (∀ store code, findCodeOwner store code ≠ none →
      (resolveUnder ⟨none, some failure⟩ store code).reply =
        .onError (report (-3000) failure.caught)) ∧
    (∀ store code,
      (fetchOwnerImageUnder (some failure) store code).reply =
        .onError (report (-3100) failure.caught)) ∧
    (∀ stringify store clock code body second third,
      (closeUnder ⟨some failure, second, third⟩ stringify store clock code body).reply =
        .onError (report (-3200) failure.caught)) ∧
    (∀ stringify store clock code body third,
      (closeUnder ⟨none, some failure, third⟩ stringify store clock code body).reply =
        .onError (report (-3200) failure.caught)) ∧
    (∀ stringify store clock code body text, code ≠ "778199" →
      (close stringify store clock code body).reply = .json text →
      (closeUnder ⟨none, none, some failure⟩ stringify store clock code body).reply =
        .onError (report (-3200) failure.caught)) := by
  refine ⟨?_, ?_, ?_, ?_, ?_, ?_, ?_, ?_, ?_⟩
  · intro fallback
    simp [errorHandler, report, DriverError.caught, Failure.toError, codeTruthy,
      codeBelowZero, hmessage, hcode, hnan]
  · intro store clock random userid scene insert
    rfl
  · intro store clock random userid scene hnone
    simp [issueOrReuseUnder, hnone]
  · intro store code selectResult
    rfl
  · intro store code hfound
    cases hjoin : findCodeOwner store code with
    | none => exact absurd hjoin hfound
    | some row =>
      obtain ⟨id, name, scene, created⟩ := row
      simp [resolveUnder, hjoin]
  · intro store code
    rfl
  · intro stringify store clock code body second third
    rfl
  · intro stringify store clock code body third
    rfl
  · intro stringify store clock code body text hne hsuccess
    rw [closeUnder_deleteCode_fault failure stringify store clock code body text hne hsuccess]

/-- Witness of C27 (amended): the locked database, reported by any handler, reaches the
client with its message and status 500. -/
theorem storage_failure_forwarded_witness :
    errorHandler sampleToNumber 99 (report (-3200) busyError.caught).toError =
      ⟨500, ⟨.text "SQLITE_BUSY", "SQLITE_BUSY: database is locked", 99⟩⟩ :=
  (storage_failure_forwarded sampleToNumber 99 busyError (by decide) (by decide)
    (by decide)).1 (-3200)

/-! ## Token refresh (GET /user/) -/

theorem find?_eq_head?_filter_users (users : List UserRow) (p : UserRow → Bool) :
    users.find? p = (users.filter p).head? := by
  induction users with
  | nil => rfl
  | cons u rest ih =>
    cases hp : p u
    · rw [List.find?_cons_of_neg _ (by simp [hp]), List.filter_cons_of_neg (by simp [hp])]
      exact ih
    · rw [List.find?_cons_of_pos _ hp, List.filter_cons_of_pos hp]
      rfl

theorem getUser_of_row (lib : Jws) (secret : String) (store : Store) (now : Nat)
    (user : Payload) (row : UserRow)
    (hrow : store.users.filter (fun u => u.id == user.id) = [row]) :
    getUser lib secret store now user =
      ⟨{ store with users := (store.users.map
          (fun u => if u.id == user.id then { u with lastLogin := now } else u)) },
        [("auth-token", issue lib secret now ⟨user.id, row.level⟩ (some tenDays))],
        .json ⟨row.name, row.level, row.license⟩⟩ := by
  have hfind : store.users.find? (fun u => u.id == user.id) = some row := by
    rw [find?_eq_head?_filter_users, hrow]
    rfl
  simp [getUser, hfind, hrow]

theorem getUser_of_success (lib : Jws) (secret : String) (store : Store) (now : Nat)
    (user : Payload) (info : UserInfo)
    (hsuccess : (getUser lib secret store now user).reply = .json info) :
    ∃ row, store.users.filter (fun u => u.id == user.id) = [row] := by
  unfold getUser at hsuccess
  cases hfind : store.users.find? (fun u => u.id == user.id) with
  | none =>
    rw [hfind] at hsuccess
    simp at hsuccess
  | some ret =>
    rw [hfind] at hsuccess
    simp only at hsuccess
    by_cases hlen : (store.users.filter (fun u => u.id == user.id)).length ≠ 1
    · rw [if_pos hlen] at hsuccess
      simp at hsuccess
    · exact List.length_eq_one.mp (by omega)

/-- C26 as stated fails: the successful response of GET /user/code/:scene, a route
mounted behind validateToken, has no auth-token header. -/
theorem userCode_response_without_token :
    pipelineOf "/user" = some [.validateToken] ∧
    (serveUserCode emptyCodesStore 50 (fun _ => 0) 7 3).reply = .json "000000" ∧
    (serveUserCode emptyCodesStore 50 (fun _ => 0) 7 3).headers.lookup "auth-token" = none := by
  refine ⟨by decide, ?_, rfl⟩
  show (issueOrReuse emptyCodesStore 50 (fun _ => 0) 7 3).reply = _
  rw [issueOrReuse_of_fresh emptyCodesStore 50 (fun _ => 0) 7 3 rfl
    (by intro c hc; simp [emptyCodesStore] at hc), generateCode_zero]

/-- C26 (amended): of the routes mounted behind validateToken, GET /user/ carries a
freshly issued token in the auth-token response header on every success, namely the
token issued at the time of the call for the id of the principal and the stored level
with a ten-day lifetime; the responses of GET /user/code/:scene and GET /modules/ set
no auth-token header. -/
theorem refresh_only_on_getUser (lib : Jws) (secret : String) (store : Store) (now : Nat)
    (user : Payload) (info : UserInfo)
    (hsuccess : (getUser lib secret store now user).reply = .json info) :
    (∃ row ∈ store.users, row.id = user.id ∧
      (getUser lib secret store now user).headers.lookup "auth-token" =
        some (issue lib secret now ⟨user.id, row.level⟩ (some tenDays))) ∧
    (∀ codes clock random userid scene,
      (serveUserCode codes clock random userid scene).headers.lookup "auth-token" = none) ∧
    (∀ modules other userid,
      (getModules modules other userid).headers.lookup "auth-token" = none) := by
  obtain ⟨row, hrow⟩ := getUser_of_success lib secret store now user info hsuccess
  have hmem : row ∈ store.users.filter (fun u => u.id == user.id) := by
    rw [hrow]; exact List.mem_singleton.mpr rfl
  rw [List.mem_filter] at hmem
  refine ⟨⟨row, hmem.1, by simpa using hmem.2, ?_⟩, ?_, ?_⟩
  · rw [getUser_of_row lib secret store now user row hrow]
    simp [List.lookup]
  · intro codes clock random userid scene
    rfl
  · intro modules other userid
    rfl

/-- Witness of C26 (amended): user 7 of the scenario store refreshes the token. -/
theorem refresh_only_on_getUser_witness :
    (getUser sampleJws "s3cret" scenarioStore 1000 ⟨7, 3, 900, none⟩).reply =
      .json ⟨"Ana", 0, 100⟩ ∧
    ∃ row ∈ scenarioStore.users, row.id = 7 ∧
      (getUser sampleJws "s3cret" scenarioStore 1000 ⟨7, 3, 900, none⟩).headers.lookup
        "auth-token" = some (issue sampleJws "s3cret" 1000 ⟨7, row.level⟩ (some tenDays)) :=
  have hsuccess : (getUser sampleJws "s3cret" scenarioStore 1000 ⟨7, 3, 900, none⟩).reply =
      .json ⟨"Ana", 0, 100⟩ := by
    rw [getUser_of_row sampleJws "s3cret" scenarioStore 1000 ⟨7, 3, 900, none⟩
      ⟨7, "ana@example.org", "hash", 0, "Ana", 0, 100⟩ (by decide)]
  ⟨hsuccess,
    (refresh_only_on_getUser sampleJws "s3cret" scenarioStore 1000 ⟨7, 3, 900, none⟩
      ⟨"Ana", 0, 100⟩ hsuccess).1⟩

/-- C30: the token refreshed by GET /user/ carries the id of the acting principal
together with the level currently stored for that user in Users, not the level of the
presented token. For every store in which the id of the principal has one row, with
stored level l1, and every presented payload, whatever its level l0, the handler
succeeds and sets the auth-token header to the token issued for the claims id and l1
with a ten-day lifetime, that is the signed payload with that id, level l1, issue time
now and expiry now + 864000 seconds; the answer and the header are the same for every
presented payload with this id. -/
theorem getUser_refreshes_stored_level (lib : Jws) (secret : String) (store : Store)
    (now : Nat) (user : Payload) (row : UserRow)
    (hrow : store.users.filter (fun u => u.id == user.id) = [row]) :
    (getUser lib secret store now user).reply = .json ⟨row.name, row.level, row.license⟩ ∧
    (getUser lib secret store now user).headers =
      [("auth-token", issue lib secret now ⟨user.id, row.level⟩ (some tenDays))] ∧
    issue lib secret now ⟨user.id, row.level⟩ (some tenDays) =
      lib.encode ⟨user.id, row.level, now, some (now + 864000)⟩ secret ∧
    (∀ presented : Payload, presented.id = user.id →
      (getUser lib secret store now presented).headers =
        (getUser lib secret store now user).headers ∧
      (getUser lib secret store now presented).reply =
        (getUser lib secret store now user).reply) := by
  rw [getUser_of_row lib secret store now user row hrow]
  refine ⟨rfl, rfl, rfl, ?_⟩
  intro presented hid
  have hrow2 : store.users.filter (fun u => u.id == presented.id) = [row] := by
    rw [hid]; exact hrow
  rw [getUser_of_row lib secret store now presented row hrow2, hid]
  exact ⟨rfl, rfl⟩

/-- Witness of C30: the presented token says level 3, the stored level of user 7 is 0,
and the refreshed token is issued for level 0. -/
theorem getUser_refreshes_stored_level_witness :
    (getUser sampleJws "s3cret" scenarioStore 1000 ⟨7, 3, 900, none⟩).headers =
      [("auth-token", issue sampleJws "s3cret" 1000 ⟨7, 0⟩ (some tenDays))] :=
  (getUser_refreshes_stored_level sampleJws "s3cret" scenarioStore 1000 ⟨7, 3, 900, none⟩
    ⟨7, "ana@example.org", "hash", 0, "Ana", 0, 100⟩ (by decide)).2.1

end Roads
